import Mathlib

/-!
Verification development for the ne0giLang tree-walking interpreter
(Python source under src/interpreter).  The Python modules are shallowly
embedded as executable Lean definitions: the scanner, parser, resolver and
interpreter are fuel-indexed structurally recursive functions so that every
concrete run reduces definitionally.

The snapshot cannot run end to end, and the embedding models that:
* `token.py` defines `Token.__init__(type, lexeme, literal, line)` — four
  parameters — while `scanner.py` (lines 43 and 178) constructs every
  token with five positional arguments.  Each such call raises a host
  `TypeError`, so scanning any source, even empty, crashes at its first
  token construction.  The embedded scanner records exactly that crash
  (`ScanCrash.tokenArity`) and produces no token list on any input.
  Likewise `scanner.py` calls `error_on_line(line, column, message)`
  against `lox.py`'s two-parameter signature (`ScanCrash.errorArity`).
* `resolver.py` imports `Super` and `UArithmeticOp` from `expr.py`,
  which defines neither: importing the driver (`lox.py` imports
  `Resolver`) raises `ImportError` before any source text is read.
  Invoking the program on a file therefore always exits 1; `driverOutcome`
  models this constant outcome.
* `parser.py` and `interpreter.py` (and `environment.py`, `function.py`,
  `klass.py`, `instance.py`, `utils.py`) are importable on their own
  (given the two genuinely absent modules below), so their behavior on
  directly constructed token lists and AST nodes is real and is what the
  component-level theorems exercise.  `resolver.py`'s visitor bodies are
  embedded as written even though the module itself cannot load.

Other modelling conventions:
* Python `float` is modelled by `Rat`; every verified statement only
  exercises exact small-integer arithmetic, never rounding or NaN.
  Python `int` (what `Scanner._number` passes for integer-shaped
  literals) is modelled by `Int` and is a distinct runtime type from
  `float`, exactly as `isinstance(x, float)` distinguishes them.
* Python `None` used as an expression value and the language value `nil`
  are the same object in the source; both are `Value.nil` here.
* `src/interpreter/types.py` and `src/interpreter/token_type.py` are not
  part of the source snapshot.  `TokenType` is reconstructed from its
  usages across scanner.py and parser.py (it is a plain enum of names).
  The `Uninitialized` sentinel is modelled from the spec as a plain class
  with object-default truthiness and identity equality; each
  `Uninitialized()` allocation gets a fresh id.
* Reading past the end of the source string (`Scanner._advance` out of
  range) would raise `IndexError` in Python; the model returns a NUL
  character instead.  No verified statement depends on an out-of-range
  read.
* Mutable heap state (environments, functions, instances) lives in an
  explicit store; Python object identity is modelled by store indices.
-/

namespace Ne0gi

/-- Token kinds.  `token_type.py` is absent from the snapshot; the
constructor list is reconstructed from every usage in `scanner.py`,
`parser.py`, `resolver.py` and `interpreter.py`. -/
inductive TokenType where
  | LEFT_PAREN | RIGHT_PAREN | LEFT_BRACE | RIGHT_BRACE
  | COMMA | DOT | SEMICOLON | QUESTION | COLON
  | MINUS | MINUS_EQUAL | DECREMENT
  | PLUS | PLUS_EQUAL | INCREMENT
  | STAR | STAR_EQUAL | POWER
  | SLASH | SLASH_EQUAL
  | MODULO | MODULO_EQUAL
  | BANG | BANG_EQUAL | EQUAL | EQUAL_EQUAL
  | LESS | LESS_EQUAL | GREATER | GREATER_EQUAL
  | BIT_LSHIFT | BIT_LSHIFT_EQUAL | BIT_RSHIFT | BIT_RSHIFT_EQUAL
  | BIT_AND | BIT_AND_EQUAL | BIT_OR | BIT_OR_EQUAL
  | BIT_XOR | BIT_XOR_EQUAL | BIT_NOT
  | AND | OR
  | IDENTIFIER | STRING | NUMBER
  | BREAK | CLASS | CONTINUE | ELSE | FALSE | FOR | FN | IF | NIL
  | RETURN | SUPER | THIS | TRUE | VAR | WHILE
  | EOF
deriving DecidableEq, Repr

/-- A token literal: Python `int`, `float`, `str`, or `None`. -/
inductive PyLit where
  | noneL
  | boolL (b : Bool)
  | intL (i : Int)
  | floatL (q : Rat)
  | strL (s : String)
deriving DecidableEq, Repr

/-- `token.py` defines `Token.__init__(type, lexeme, literal, line)` —
four parameters, no column.  The scanner and resolver pass five
arguments, which raises `TypeError` in the source; the embedded scanner
records that crash (see `ScanCrash.tokenArity`, whose payload is this
five-field tuple of attempted arguments).  Tokens that actually exist
are the directly constructed four-argument ones (as a test harness
would build); the `column` field here is inert data that no embedded
parser/resolver/interpreter code ever reads.  Equality
(`Token.__eq__`) compares only `type` and `lexeme`. -/
structure Token where
  type : TokenType
  lexeme : String
  literal : PyLit
  line : Nat
  column : Nat
deriving DecidableEq, Repr

/-- `Token.__eq__`: equal iff kind and lexeme are equal. -/
def tokenEq (a b : Token) : Bool :=
  a.type == b.type && a.lexeme == b.lexeme

instance : BEq TokenType := ⟨fun a b => decide (a = b)⟩

/-! ## Scanner (scanner.py) -/

/-- The two host-level `TypeError`s the scanner raises in this snapshot:
`tokenArity` for `Token(type, text, literal, line, column)` — five
arguments into token.py's four-parameter `__init__` (the payload records
the attempted arguments) — and `errorArity` for
`error_on_line(line, column, message)` — three arguments into lox.py's
two-parameter method.  Either exception propagates out of
`scan_tokens` uncaught, so a crash ends the scan. -/
inductive ScanCrash where
  | tokenArity (t : Token)
  | errorArity (line : Nat) (column : Nat) (msg : String)
deriving DecidableEq, Repr

/-- Scanner state: `_start`, `_current`, `_column`, `_line`, plus the
crash that terminates every scan (`_tokens` stays empty in the source
because the first `_add_token` call already raises). -/
structure ScanSt where
  src : List Char
  start : Nat
  current : Nat
  column : Nat
  line : Nat
  crash : Option ScanCrash
deriving Repr

namespace Scanner

/-- `Scanner.keywords`: exactly the fifteen entries of the source map
(note: no `and`, `or` or `print` keyword). -/
def keywords : List (String × TokenType) :=
  [("break", .BREAK), ("class", .CLASS), ("continue", .CONTINUE),
   ("else", .ELSE), ("false", .FALSE), ("for", .FOR), ("fn", .FN),
   ("if", .IF), ("nil", .NIL), ("return", .RETURN), ("super", .SUPER),
   ("this", .THIS), ("true", .TRUE), ("var", .VAR), ("while", .WHILE)]

def isAtEnd (st : ScanSt) : Bool := st.current ≥ st.src.length

/-- `_peek`: current character, `"\0"` at end. -/
def peekC (st : ScanSt) : Char := st.src.getD st.current '\x00'

/-- `_peek_next`. -/
def peekNextC (st : ScanSt) : Char := st.src.getD (st.current + 1) '\x00'

/-- `_advance`: bump `_current` and `_column`, return the consumed
character (NUL stands in for Python's IndexError on an out-of-range
read; never exercised by a verified statement). -/
def advanceC (st : ScanSt) : Char × ScanSt :=
  (st.src.getD st.current '\x00',
   { st with current := st.current + 1, column := st.column + 1 })

/-- `_match`: conditional consume.  Note it bumps `_current` only, not
`_column`, exactly as the source does. -/
def matchC (st : ScanSt) (expected : Char) : Bool × ScanSt :=
  if isAtEnd st then (false, st)
  else if st.src.getD st.current '\x00' ≠ expected then (false, st)
  else (true, { st with current := st.current + 1 })

/-- `self._source[self._start : self._current]`. -/
def lexemeSlice (st : ScanSt) : String :=
  String.mk ((st.src.drop st.start).take (st.current - st.start))

/-- Record a crash (an exception ends the scan, so at most one is set). -/
def setCrash (st : ScanSt) (c : ScanCrash) : ScanSt :=
  if st.crash.isSome then st else { st with crash := some c }

/-- `_add_token` calls `Token(type, text, literal, self._line,
self._column)`: five arguments against token.py's four-parameter
`__init__`, an immediate `TypeError`.  The crash payload is the
attempted argument tuple; no token is ever appended. -/
def addToken (st : ScanSt) (t : TokenType) (lit : PyLit) : ScanSt :=
  setCrash st (.tokenArity ⟨t, lexemeSlice st, lit, st.line, st.column⟩)

def isDigitC (c : Char) : Bool := c ≥ '0' && c ≤ '9'

def isAlphaC (c : Char) : Bool :=
  (c ≥ 'a' && c ≤ 'z') || (c ≥ 'A' && c ≤ 'Z') || c = '_'

def isAlphaNumericC (c : Char) : Bool := isAlphaC c || isDigitC c

/-- Value of a digit run. -/
def digitsVal (cs : List Char) : Nat :=
  cs.foldl (fun acc c => acc * 10 + (c.toNat - '0'.toNat)) 0

/-- `int(slice)` for a slice of decimal digits. -/
def parseIntSlice (cs : List Char) : Int := (digitsVal cs : Int)

/-- `float(slice)` for `digits "." digits` (the scanner's float shape). -/
def parseFloatSlice (cs : List Char) : Rat :=
  let intPart := cs.takeWhile (fun c => c ≠ '.')
  let fracPart := (cs.dropWhile (fun c => c ≠ '.')).drop 1
  (digitsVal intPart : Rat) + (digitsVal fracPart : Rat) / ((10 : Rat) ^ fracPart.length)

/-- `_number`: digits, then an optional `.` fractional part; an
integer-shaped literal becomes a Python `int`, a dotted one a `float`. -/
def scanNumber (fuel : Nat) (st : ScanSt) : ScanSt :=
  match fuel with
  | 0 => st
  | fuel + 1 =>
    if isDigitC (peekC st) then scanNumber fuel (advanceC st).2
    else if peekC st = '.' then
      let st := (advanceC st).2
      let st := consumeFrac fuel st
      addToken st .NUMBER (.floatL (parseFloatSlice ((st.src.drop st.start).take (st.current - st.start))))
    else
      addToken st .NUMBER (.intL (parseIntSlice ((st.src.drop st.start).take (st.current - st.start))))
where
  consumeFrac : Nat → ScanSt → ScanSt
    | 0, st => st
    | fuel + 1, st =>
      if isDigitC (peekC st) then consumeFrac fuel (advanceC st).2 else st

/-- `_string`. -/
def scanString (fuel : Nat) (st : ScanSt) : ScanSt :=
  match fuel with
  | 0 => st
  | fuel + 1 =>
    if peekC st ≠ '"' && !isAtEnd st then
      let st := if peekC st = '\n' then { st with line := st.line + 1 } else st
      scanString fuel (advanceC st).2
    else if isAtEnd st then
      -- `self._agent.error_on_line(line, column, msg)`: three arguments
      -- into lox.py's two-parameter error_on_line — a TypeError
      setCrash st (.errorArity st.line st.column "Unterminated string.")
    else
      let st := (advanceC st).2
      let value := String.mk ((st.src.drop (st.start + 1)).take (st.current - 1 - (st.start + 1)))
      addToken st .STRING (.strL value)

/-- `_identifier`. -/
def scanIdentifier (fuel : Nat) (st : ScanSt) : ScanSt :=
  match fuel with
  | 0 => st
  | fuel + 1 =>
    if isAlphaNumericC (peekC st) then scanIdentifier fuel (advanceC st).2
    else
      let text := lexemeSlice st
      let t := ((keywords.find? (fun p => p.1 == text)).map Prod.snd).getD .IDENTIFIER
      addToken st t .noneL

/-- `_block_comment`, exactly as written: the loop guard is
`not (at_end or peek != "*" and peek_next != "/")` (Python binds `and`
tighter than `or`), and afterwards two unconditional `_advance` calls. -/
def blockComment (fuel : Nat) (st : ScanSt) : ScanSt :=
  match fuel with
  | 0 => st
  | fuel + 1 =>
    if !(isAtEnd st || (peekC st ≠ '*' && peekNextC st ≠ '/')) then
      let st := if peekC st = '\n' then { st with line := st.line + 1 } else st
      blockComment fuel (advanceC st).2
    else
      (advanceC (advanceC st).2).2

/-- `// ...` line comment body. -/
def lineComment (fuel : Nat) (st : ScanSt) : ScanSt :=
  match fuel with
  | 0 => st
  | fuel + 1 =>
    if peekC st ≠ '\n' && !isAtEnd st then lineComment fuel (advanceC st).2
    else st

/-- `_scan_token`: the big dispatch, with the source's case order (each
guarded case tries its `_match` in turn). -/
def scanToken (fuel : Nat) (st0 : ScanSt) : ScanSt :=
  let (c, st) := advanceC st0
  match c with
  | '(' => addToken st .LEFT_PAREN .noneL
  | ')' => addToken st .RIGHT_PAREN .noneL
  | '\x7b' => addToken st .LEFT_BRACE .noneL
  | '\x7d' => addToken st .RIGHT_BRACE .noneL
  | ',' => addToken st .COMMA .noneL
  | '.' => addToken st .DOT .noneL
  | '-' =>
    let (m, st) := matchC st '='
    if m then addToken st .MINUS_EQUAL .noneL else
    let (m, st) := matchC st '-'
    if m then addToken st .DECREMENT .noneL else addToken st .MINUS .noneL
  | '+' =>
    let (m, st) := matchC st '='
    if m then addToken st .PLUS_EQUAL .noneL else
    let (m, st) := matchC st '+'
    if m then addToken st .INCREMENT .noneL else addToken st .PLUS .noneL
  | ';' => addToken st .SEMICOLON .noneL
  | '*' =>
    let (m, st) := matchC st '='
    if m then addToken st .STAR_EQUAL .noneL else
    let (m, st) := matchC st '*'
    if m then addToken st .POWER .noneL else addToken st .STAR .noneL
  | '?' => addToken st .QUESTION .noneL
  | ':' => addToken st .COLON .noneL
  | '!' =>
    let (m, st) := matchC st '='
    if m then addToken st .BANG_EQUAL .noneL else addToken st .BANG .noneL
  | '=' =>
    let (m, st) := matchC st '='
    if m then addToken st .EQUAL_EQUAL .noneL else addToken st .EQUAL .noneL
  | '<' =>
    let (m, st) := matchC st '<'
    if m then
      let (m2, st) := matchC st '='
      addToken st (if m2 then .BIT_LSHIFT_EQUAL else .BIT_LSHIFT) .noneL
    else
      let (m, st) := matchC st '='
      if m then addToken st .LESS_EQUAL .noneL else addToken st .LESS .noneL
  | '>' =>
    let (m, st) := matchC st '='
    if m then addToken st .GREATER_EQUAL .noneL else
    let (m, st) := matchC st '>'
    if m then
      let (m2, st) := matchC st '='
      addToken st (if m2 then .BIT_RSHIFT_EQUAL else .BIT_RSHIFT) .noneL
    else addToken st .GREATER .noneL
  | '/' =>
    let (m, st) := matchC st '/'
    if m then lineComment fuel st else
    let (m, st) := matchC st '*'
    if m then blockComment fuel st else
    let (m, st) := matchC st '='
    if m then addToken st .SLASH_EQUAL .noneL else addToken st .SLASH .noneL
  | ' ' => st
  | '\r' => st
  | '\t' => st
  | '\n' => { st with line := st.line + 1, column := 0 }
  | '"' => scanString fuel st
  | '&' =>
    let (m, st) := matchC st '&'
    if m then addToken st .AND .noneL else
    let (m, st) := matchC st '='
    if m then addToken st .BIT_AND_EQUAL .noneL else addToken st .BIT_AND .noneL
  | '~' => addToken st .BIT_NOT .noneL
  | '|' =>
    let (m, st) := matchC st '|'
    if m then addToken st .OR .noneL else
    let (m, st) := matchC st '='
    if m then addToken st .BIT_OR_EQUAL .noneL else addToken st .BIT_OR .noneL
  | '%' =>
    let (m, st) := matchC st '='
    if m then addToken st .MODULO_EQUAL .noneL else addToken st .MODULO .noneL
  | '^' =>
    let (m, st) := matchC st '='
    if m then addToken st .BIT_XOR_EQUAL .noneL else addToken st .BIT_XOR .noneL
  | c =>
    if isDigitC c then scanNumber fuel st
    else if isAlphaC c then scanIdentifier fuel st
    else
      -- three-argument error_on_line again: a TypeError in the source
      setCrash st (.errorArity st.line st.column "Unexpected character.")

/-- `scan_tokens` main loop.  A raised exception (any crash) propagates
out immediately; the final EOF append (scanner.py line 43) is another
five-argument `Token` call, so even an empty or fully consumed source
crashes there. -/
def scanLoop (fuel : Nat) (st : ScanSt) : ScanSt :=
  match fuel with
  | 0 => st
  | fuel + 1 =>
    if st.crash.isSome then st
    else if isAtEnd st then
      setCrash st (.tokenArity ⟨.EOF, "", .noneL, st.line, st.column⟩)
    else
      scanLoop fuel (scanToken (st.src.length + 1) { st with start := st.current })

/-- `Scanner(source).scan_tokens()`: on every input the scan ends in a
host-level `TypeError`; the returned state records which construction
failed and where the cursor stood. -/
def scanTokens (source : String) : ScanSt :=
  let cs := source.toList
  scanLoop (cs.length + 2)
    { src := cs, start := 0, current := 0, column := 0, line := 1, crash := none }

end Scanner

/-! ## AST (expr.py / stmt.py)

Expression node identity: the resolver's side table is keyed by Python
object identity.  Following the spec's own advice, the parser stamps a
monotonically increasing `id` on each `Variable`, `Assign` and `This`
node (the node kinds that are ever passed to `Interpreter.resolve`).
`expr.py` in the snapshot defines no `Super` node, and the parser never
constructs one, so the embedding has none. -/

mutual

inductive Expr where
  | assign (id : Nat) (name : Token) (value : Expr)
  | binary (left : Expr) (operator : Token) (right : Expr)
  | call (callee : Expr) (paren : Token) (arguments : List Expr)
  | comma (left : Expr) (operator : Token) (right : Expr)
  | functionE (params : List Token) (body : List (Option Stmt))
  | getE (obj : Expr) (name : Token)
  | grouping (expression : Expr)
  | literal (value : PyLit)
  | logical (left : Expr) (operator : Token) (right : Expr)
  | setE (obj : Expr) (name : Token) (value : Expr)
  | ternary (condition : Expr) (thenBranch : Expr) (elseBranch : Expr)
  | thisE (id : Nat) (keyword : Token)
  | unary (operator : Token) (right : Expr)
  | variable (id : Nat) (name : Token)

inductive Stmt where
  | block (statements : List (Option Stmt))
  | breakS
  | classS (name : Token) (superclass : Option Expr) (methods : List Stmt)
  | contS
  | exprS (expression : Expr)
  | forS (initializer : Option Stmt) (condition : Option Expr)
         (increment : Option Expr) (body : Option Stmt)
  | fnS (name : Token) (function : Expr)
  | ifS (condition : Expr) (thenBranch : Option Stmt) (elseBranch : Option Stmt)
  | multiVar (vars : List Stmt)
  | retS (keyword : Token) (value : Option Expr)
  | varS (name : Token) (initializer : Option Expr)
  | whileS (condition : Expr) (body : Option Stmt)

end

/-! ## Parser (parser.py) -/

/-- Parser state: token list, cursor, `_loop_depth`, the diagnostics
reported through `Lox.error_on_token`, and the node-id counter. -/
structure PState where
  tokens : List Token
  current : Nat
  loopDepth : Nat
  errors : List (Token × String)
  nextId : Nat
deriving Repr

/-- Parser escape channel: `ParseError` (caught by `_declaration`) or a
host-level crash (an uncaught Python `TypeError`). -/
inductive PE where
  | perr
  | pcrash (msg : String)
deriving Repr

/-- Result payload of a parser job. -/
inductive PRes where
  | rOStmt (s : Option Stmt)
  | rExpr (e : Expr)
  | rOStmts (l : List (Option Stmt))
  | rToks (l : List Token)
  | rStmts (l : List Stmt)
  | rExprs (l : List Expr)

namespace ParserM

def eofFallback : Token := ⟨.EOF, "", .noneL, 0, 0⟩

/-- `_peek`. -/
def peekP (st : PState) : Token := st.tokens.getD st.current eofFallback

/-- `_previous`; Python `tokens[-1]` (negative index) when `current = 0`. -/
def previousP (st : PState) : Token :=
  if st.current = 0 then st.tokens.getLastD eofFallback
  else st.tokens.getD (st.current - 1) eofFallback

/-- `_is_at_end`. -/
def isAtEndP (st : PState) : Bool := (peekP st).type == .EOF

/-- `_check`. -/
def checkP (st : PState) (t : TokenType) : Bool :=
  !isAtEndP st && (peekP st).type == t

/-- `_advance`. -/
def advanceP (st : PState) : Token × PState :=
  let st := if isAtEndP st then st else { st with current := st.current + 1 }
  (previousP st, st)

/-- The reporting half of `_error` (`Lox.error_on_token`). -/
def reportErr (st : PState) (tok : Token) (msg : String) : PState :=
  { st with errors := st.errors ++ [(tok, msg)] }

/-- Fresh node id for `Variable` / `Assign` / `This` nodes. -/
def freshId (st : PState) : Nat × PState :=
  (st.nextId, { st with nextId := st.nextId + 1 })

/-- `_consume`: advance on the expected kind, otherwise report and raise. -/
def consumeP (st : PState) (t : TokenType) (msg : String) :
    Except (PE × PState) (Token × PState) :=
  if checkP st t then .ok (advanceP st)
  else .error (.perr, reportErr st (peekP st) msg)

/-- `_match(*types)`. -/
def matchP (st : PState) (ts : List TokenType) : Bool × PState :=
  match ts with
  | [] => (false, st)
  | t :: rest =>
    if checkP st t then (true, (advanceP st).2) else matchP st rest

/-- `_synchronize` loop body. -/
def syncLoop : Nat → PState → PState
  | 0, st => st
  | fuel + 1, st =>
    if !isAtEndP st then
      if (previousP st).type == .SEMICOLON then st
      else
        match (peekP st).type with
        | .CLASS | .FN | .VAR | .FOR | .IF | .WHILE | .RETURN => st
        | _ => syncLoop fuel (advanceP st).2
    else st

/-- `_synchronize`. -/
def synchronizeP (st : PState) : PState :=
  syncLoop (st.tokens.length + 1) (advanceP st).2

/-- Parser work items; loops of the recursive-descent source functions
become accumulator-carrying jobs so that the whole parser is a single
structurally recursive function on fuel. -/
inductive PJob where
  | decl
  | classJ
  | functionJ (kind : String)
  | functionBody (kind : String)
  | paramsLoop (kind : String) (acc : List Token)
  | multiVarJ
  | multiVarLoop (acc : List Stmt)
  | varDeclJ
  | statementJ
  | breakJ
  | continueJ
  | forJ
  | ifJ
  | returnJ
  | whileJ
  | exprStmtJ
  | blockJ
  | blockLoop (acc : List (Option Stmt))
  | classMethodsLoop (acc : List Stmt)
  | expressionJ
  | commaLoop (acc : Expr)
  | assignmentJ
  | ternaryJ
  | ternaryLoop (acc : Expr)
  | orJ
  | orLoop (acc : Expr)
  | andJ
  | andLoop (acc : Expr)
  | equalityJ
  | equalityLoop (acc : Expr)
  | comparisonJ
  | comparisonLoop (acc : Expr)
  | termJ
  | termLoop (acc : Expr)
  | factorJ
  | factorLoop (acc : Expr)
  | unaryJ
  | exponentJ
  | exponentLoop (acc : Expr)
  | callJ
  | callLoop (acc : Expr)
  | finishCallJ (callee : Expr)
  | argsLoop (callee : Expr) (acc : List Expr)
  | primaryJ
  | parseLoop (acc : List (Option Stmt))

def asExpr : PRes × PState → Except (PE × PState) (Expr × PState)
  | (.rExpr e, st) => .ok (e, st)
  | (_, st) => .error (.pcrash "internal: expected expression result", st)

def asOStmt : PRes × PState → Except (PE × PState) (Option Stmt × PState)
  | (.rOStmt s, st) => .ok (s, st)
  | (_, st) => .error (.pcrash "internal: expected statement result", st)

def asOStmts : PRes × PState → Except (PE × PState) (List (Option Stmt) × PState)
  | (.rOStmts l, st) => .ok (l, st)
  | (_, st) => .error (.pcrash "internal: expected statement list result", st)

def asToks : PRes × PState → Except (PE × PState) (List Token × PState)
  | (.rToks l, st) => .ok (l, st)
  | (_, st) => .error (.pcrash "internal: expected token list result", st)

def asStmts : PRes × PState → Except (PE × PState) (List Stmt × PState)
  | (.rStmts l, st) => .ok (l, st)
  | (_, st) => .error (.pcrash "internal: expected var list result", st)

def asExprs : PRes × PState → Except (PE × PState) (List Expr × PState)
  | (.rExprs l, st) => .ok (l, st)
  | (_, st) => .error (.pcrash "internal: expected argument list result", st)

/-- The whole recursive-descent parser as one fuel-indexed machine.
Every case mirrors the body of the corresponding `Parser._...` method. -/
def pgo : Nat → PJob → PState → Except (PE × PState) (PRes × PState)
  | 0, _, st => .error (.pcrash "internal: parser out of fuel", st)
  | fuel + 1, job, st =>
    match job with
    | .decl =>
      -- `_declaration`: dispatch, catching ParseError via `_synchronize`
      let attempt : Except (PE × PState) (PRes × PState) :=
        let (m, st) := matchP st [.CLASS]
        if m then pgo fuel .classJ st else
        let (m, st) := matchP st [.FN]
        if m then pgo fuel (.functionJ "function") st else
        let (m, st) := matchP st [.VAR]
        if m then pgo fuel .multiVarJ st else
        pgo fuel .statementJ st
      match attempt with
      | .ok r => .ok r
      | .error (.perr, st) => .ok (.rOStmt none, synchronizeP st)
      | .error (e, st) => .error (e, st)
    | .classJ => do
      -- `_class`; the final `ClassStmt(name, methods)` call passes two
      -- arguments to stmt.Class.__init__(name, superclass, methods):
      -- a host TypeError, modelled as a parser crash.
      let (_, st) ← consumeP st .IDENTIFIER "Expected class name."
      let (_, st) ← consumeP st .LEFT_BRACE "Expected '\x7b' before class body."
      let (_, st) ← asStmts (← pgo fuel (.classMethodsLoop []) st)
      let (_, st) ← consumeP st .RIGHT_BRACE "Expected '\x7d' after class body."
      .error (.pcrash "TypeError: Class.__init__() missing 1 required positional argument: 'methods'", st)
    | .classMethodsLoop acc =>
      if !checkP st .RIGHT_BRACE && !isAtEndP st then do
        let (m, st) ← asOStmt (← pgo fuel (.functionJ "method") st)
        match m with
        | some s => pgo fuel (.classMethodsLoop (acc ++ [s])) st
        | none => .error (.pcrash "internal: method parse", st)
      else .ok (.rStmts acc, st)
    | .functionJ kind => do
      let (name, st) ← consumeP st .IDENTIFIER ("Expected " ++ kind ++ " name.")
      let (fn, st) ← asExpr (← pgo fuel (.functionBody kind) st)
      .ok (.rOStmt (some (.fnS name fn)), st)
    | .functionBody kind => do
      let (_, st) ← consumeP st .LEFT_PAREN ("Expected '(' after " ++ kind ++ ".")
      let (params, st) ←
        if !checkP st .RIGHT_PAREN then
          asToks (← pgo fuel (.paramsLoop kind []) st)
        else .ok (([] : List Token), st)
      let (_, st) ← consumeP st .RIGHT_PAREN "Expected ')' after parameters."
      let (_, st) ← consumeP st .LEFT_BRACE ("Expected '\x7b' before " ++ kind ++ " body.")
      let (body, st) ← asOStmts (← pgo fuel .blockJ st)
      .ok (.rExpr (.functionE params body), st)
    | .paramsLoop kind acc => do
      let st := if acc.length ≥ 255
        then reportErr st (peekP st) "Cannot have more than 255 parameters."
        else st
      let (p, st) ← consumeP st .IDENTIFIER "Expected parameter name."
      let (m, st) := matchP st [.COMMA]
      if m then pgo fuel (.paramsLoop kind (acc ++ [p])) st
      else .ok (.rToks (acc ++ [p]), st)
    | .multiVarJ => do
      let (v, st) ← asOStmt (← pgo fuel .varDeclJ st)
      match v with
      | some v0 => do
        let (vars, st) ← asStmts (← pgo fuel (.multiVarLoop [v0]) st)
        let (_, st) ← consumeP st .SEMICOLON "Expected ';' after variable declaration."
        .ok (.rOStmt (some (.multiVar vars)), st)
      | none => .error (.pcrash "internal: var parse", st)
    | .multiVarLoop acc =>
      let (m, st) := matchP st [.COMMA]
      if m then do
        let (v, st) ← asOStmt (← pgo fuel .varDeclJ st)
        match v with
        | some v0 => pgo fuel (.multiVarLoop (acc ++ [v0])) st
        | none => .error (.pcrash "internal: var parse", st)
      else .ok (.rStmts acc, st)
    | .varDeclJ => do
      let (name, st) ← consumeP st .IDENTIFIER "Expected variable name."
      let (m, st) := matchP st [.EQUAL]
      if m then do
        let (e, st) ← asExpr (← pgo fuel .assignmentJ st)
        .ok (.rOStmt (some (.varS name (some e))), st)
      else .ok (.rOStmt (some (.varS name none)), st)
    | .statementJ =>
      let (m, st) := matchP st [.BREAK]
      if m then pgo fuel .breakJ st else
      let (m, st) := matchP st [.CONTINUE]
      if m then pgo fuel .continueJ st else
      let (m, st) := matchP st [.FOR]
      if m then pgo fuel .forJ st else
      let (m, st) := matchP st [.IF]
      if m then pgo fuel .ifJ st else
      let (m, st) := matchP st [.LEFT_BRACE]
      if m then do
        let (l, st) ← asOStmts (← pgo fuel .blockJ st)
        .ok (.rOStmt (some (.block l)), st)
      else
      let (m, st) := matchP st [.RETURN]
      if m then pgo fuel .returnJ st else
      let (m, st) := matchP st [.SEMICOLON]
      -- a bare `;` makes `_statement` fall off the end: Python `return`,
      -- i.e. the statement is None
      if m then .ok (.rOStmt none, st) else
      let (m, st) := matchP st [.WHILE]
      if m then pgo fuel .whileJ st else
      pgo fuel .exprStmtJ st
    | .breakJ =>
      -- `_break_statement`: outside a loop this raises `ParseError`
      -- directly, WITHOUT reporting through the driver (no `_error`),
      -- so no diagnostic is recorded and the error flag stays clear.
      if st.loopDepth = 0 then .error (.perr, st)
      else do
        let (_, st) ← consumeP st .SEMICOLON "Expected ';' after 'break'."
        .ok (.rOStmt (some .breakS), st)
    | .continueJ =>
      if st.loopDepth = 0 then .error (.perr, st)
      else do
        let (_, st) ← consumeP st .SEMICOLON "Expected ';' after 'continue'."
        .ok (.rOStmt (some .contS), st)
    | .forJ => do
      let (_, st) ← consumeP st .LEFT_PAREN "Expected '(' after 'for'."
      let (initializer, st) ← (do
        let (m, st) := matchP st [.VAR]
        if m then asOStmt (← pgo fuel .multiVarJ st)
        else
          let (m, st) := matchP st [.SEMICOLON]
          if m then .ok ((none : Option Stmt), st)
          else asOStmt (← pgo fuel .exprStmtJ st))
      let (condition, st) ←
        if !checkP st .SEMICOLON then do
          let (e, st) ← asExpr (← pgo fuel .expressionJ st)
          pure ((some e : Option Expr), st)
        else pure ((none : Option Expr), st)
      let (_, st) ← consumeP st .SEMICOLON "Expected ';' after loop condition."
      let (increment, st) ←
        if !checkP st .RIGHT_PAREN then do
          let (e, st) ← asExpr (← pgo fuel .expressionJ st)
          pure ((some e : Option Expr), st)
        else pure ((none : Option Expr), st)
      let (_, st) ← consumeP st .RIGHT_PAREN "Expected ')' after for clause."
      -- try: loop_depth += 1; body; finally: loop_depth -= 1
      let st := { st with loopDepth := st.loopDepth + 1 }
      match pgo fuel .statementJ st with
      | .ok (r, st) => do
        let st := { st with loopDepth := st.loopDepth - 1 }
        let (body, st) ← asOStmt (r, st)
        .ok (.rOStmt (some (.block [some (.forS initializer condition increment body)])), st)
      | .error (e, st) => .error (e, { st with loopDepth := st.loopDepth - 1 })
    | .ifJ => do
      let (_, st) ← consumeP st .LEFT_PAREN "Expected '(' after 'if'."
      let (condition, st) ← asExpr (← pgo fuel .expressionJ st)
      let (_, st) ← consumeP st .RIGHT_PAREN "Expected ')' after if condition."
      let (thenBranch, st) ← asOStmt (← pgo fuel .statementJ st)
      let (m, st) := matchP st [.ELSE]
      if m then do
        let (elseBranch, st) ← asOStmt (← pgo fuel .statementJ st)
        .ok (.rOStmt (some (.ifS condition thenBranch elseBranch)), st)
      else .ok (.rOStmt (some (.ifS condition thenBranch none)), st)
    | .returnJ => do
      let keyword := previousP st
      let (value, st) ←
        if !checkP st .SEMICOLON then do
          let (e, st) ← asExpr (← pgo fuel .expressionJ st)
          pure ((some e : Option Expr), st)
        else pure ((none : Option Expr), st)
      let (_, st) ← consumeP st .SEMICOLON "Expected ';' after return value."
      .ok (.rOStmt (some (.retS keyword value)), st)
    | .whileJ => do
      let (_, st) ← consumeP st .LEFT_PAREN "Expected '(' after 'while'."
      let (condition, st) ← asExpr (← pgo fuel .expressionJ st)
      let (_, st) ← consumeP st .RIGHT_PAREN "Expected ')' after condition."
      let st := { st with loopDepth := st.loopDepth + 1 }
      match pgo fuel .statementJ st with
      | .ok (r, st) => do
        let st := { st with loopDepth := st.loopDepth - 1 }
        let (body, st) ← asOStmt (r, st)
        .ok (.rOStmt (some (.whileS condition body)), st)
      | .error (e, st) => .error (e, { st with loopDepth := st.loopDepth - 1 })
    | .exprStmtJ => do
      let (e, st) ← asExpr (← pgo fuel .expressionJ st)
      let (_, st) ← consumeP st .SEMICOLON "Expected ';' after expression."
      .ok (.rOStmt (some (.exprS e)), st)
    | .blockJ => pgo fuel (.blockLoop []) st
    | .blockLoop acc =>
      if !checkP st .RIGHT_BRACE && !isAtEndP st then do
        let (s, st) ← asOStmt (← pgo fuel .decl st)
        pgo fuel (.blockLoop (acc ++ [s])) st
      else do
        let (_, st) ← consumeP st .RIGHT_BRACE "Expected '\x7d' after block."
        .ok (.rOStmts acc, st)
    | .expressionJ => do
      let (e, st) ← asExpr (← pgo fuel .assignmentJ st)
      pgo fuel (.commaLoop e) st
    | .commaLoop acc =>
      let (m, st) := matchP st [.COMMA]
      if m then do
        let op := previousP st
        let (right, st) ← asExpr (← pgo fuel .assignmentJ st)
        pgo fuel (.commaLoop (.comma acc op right)) st
      else .ok (.rExpr acc, st)
    | .assignmentJ => do
      let (e, st) ← asExpr (← pgo fuel .ternaryJ st)
      let (m, st) := matchP st [.EQUAL]
      if m then
        let equals := previousP st
        do
        let (value, st) ← asExpr (← pgo fuel .assignmentJ st)
        match e with
        | .variable _ name =>
          let (i, st) := freshId st
          .ok (.rExpr (.assign i name value), st)
        | .getE obj name => .ok (.rExpr (.setE obj name value), st)
        | _ =>
          -- `self._error(...)` reports without raising, then `return expr`
          .ok (.rExpr e, reportErr st equals "Invalid assignment target.")
      else .ok (.rExpr e, st)
    | .ternaryJ => do
      let (e, st) ← asExpr (← pgo fuel .orJ st)
      pgo fuel (.ternaryLoop e) st
    | .ternaryLoop acc =>
      let (m, st) := matchP st [.QUESTION]
      if m then do
        let (thenBranch, st) ← asExpr (← pgo fuel .assignmentJ st)
        let (_, st) ← consumeP st .COLON "Expected ':' after expression."
        let (elseBranch, st) ← asExpr (← pgo fuel .assignmentJ st)
        pgo fuel (.ternaryLoop (.ternary acc thenBranch elseBranch)) st
      else .ok (.rExpr acc, st)
    | .orJ => do
      let (e, st) ← asExpr (← pgo fuel .andJ st)
      pgo fuel (.orLoop e) st
    | .orLoop acc =>
      let (m, st) := matchP st [.OR]
      if m then do
        let op := previousP st
        let (right, st) ← asExpr (← pgo fuel .andJ st)
        pgo fuel (.orLoop (.logical acc op right)) st
      else .ok (.rExpr acc, st)
    | .andJ => do
      let (e, st) ← asExpr (← pgo fuel .equalityJ st)
      pgo fuel (.andLoop e) st
    | .andLoop acc =>
      let (m, st) := matchP st [.AND]
      if m then do
        let op := previousP st
        let (right, st) ← asExpr (← pgo fuel .equalityJ st)
        pgo fuel (.andLoop (.logical acc op right)) st
      else .ok (.rExpr acc, st)
    | .equalityJ => do
      let (e, st) ← asExpr (← pgo fuel .comparisonJ st)
      pgo fuel (.equalityLoop e) st
    | .equalityLoop acc =>
      let (m, st) := matchP st [.BANG_EQUAL, .EQUAL_EQUAL]
      if m then do
        let op := previousP st
        let (right, st) ← asExpr (← pgo fuel .comparisonJ st)
        pgo fuel (.equalityLoop (.binary acc op right)) st
      else .ok (.rExpr acc, st)
    | .comparisonJ => do
      let (e, st) ← asExpr (← pgo fuel .termJ st)
      pgo fuel (.comparisonLoop e) st
    | .comparisonLoop acc =>
      let (m, st) := matchP st [.GREATER, .GREATER_EQUAL, .LESS, .LESS_EQUAL]
      if m then do
        let op := previousP st
        let (right, st) ← asExpr (← pgo fuel .termJ st)
        pgo fuel (.comparisonLoop (.binary acc op right)) st
      else .ok (.rExpr acc, st)
    | .termJ => do
      let (e, st) ← asExpr (← pgo fuel .factorJ st)
      pgo fuel (.termLoop e) st
    | .termLoop acc =>
      let (m, st) := matchP st [.MINUS, .PLUS]
      if m then do
        let op := previousP st
        let (right, st) ← asExpr (← pgo fuel .factorJ st)
        pgo fuel (.termLoop (.binary acc op right)) st
      else .ok (.rExpr acc, st)
    | .factorJ => do
      let (e, st) ← asExpr (← pgo fuel .unaryJ st)
      pgo fuel (.factorLoop e) st
    | .factorLoop acc =>
      let (m, st) := matchP st [.SLASH, .STAR]
      if m then do
        let op := previousP st
        let (right, st) ← asExpr (← pgo fuel .unaryJ st)
        pgo fuel (.factorLoop (.binary acc op right)) st
      else .ok (.rExpr acc, st)
    | .unaryJ =>
      let (m, st) := matchP st [.BANG, .MINUS, .PLUS, .INCREMENT, .DECREMENT]
      if m then do
        let op := previousP st
        let (right, st) ← asExpr (← pgo fuel .unaryJ st)
        .ok (.rExpr (.unary op right), st)
      else pgo fuel .exponentJ st
    | .exponentJ => do
      let (e, st) ← asExpr (← pgo fuel .callJ st)
      pgo fuel (.exponentLoop e) st
    | .exponentLoop acc =>
      let (m, st) := matchP st [.POWER]
      if m then do
        let op := previousP st
        let (right, st) ← asExpr (← pgo fuel .callJ st)
        pgo fuel (.exponentLoop (.binary acc op right)) st
      else .ok (.rExpr acc, st)
    | .callJ => do
      let (e, st) ← asExpr (← pgo fuel .primaryJ st)
      pgo fuel (.callLoop e) st
    | .callLoop acc =>
      let (m, st) := matchP st [.LEFT_PAREN]
      if m then do
        let (e, st) ← asExpr (← pgo fuel (.finishCallJ acc) st)
        pgo fuel (.callLoop e) st
      else
        let (m, st) := matchP st [.DOT]
        if m then do
          let (name, st) ← consumeP st .IDENTIFIER "Expected property name."
          pgo fuel (.callLoop (.getE acc name)) st
        else .ok (.rExpr acc, st)
    | .finishCallJ callee => do
      let (args, st) ←
        if !checkP st .RIGHT_PAREN then
          asExprs (← pgo fuel (.argsLoop callee []) st)
        else .ok (([] : List Expr), st)
      let (paren, st) ← consumeP st .RIGHT_PAREN "Expected ')' after arguments."
      .ok (.rExpr (.call callee paren args), st)
    | .argsLoop callee acc => do
      let st := if acc.length ≥ 255
        then reportErr st (peekP st) "Cannot have more than 255 arguments."
        else st
      let (a, st) ← asExpr (← pgo fuel .assignmentJ st)
      let (m, st) := matchP st [.COMMA]
      if m then pgo fuel (.argsLoop callee (acc ++ [a])) st
      else .ok (.rExprs (acc ++ [a]), st)
    | .primaryJ =>
      let (m, st) := matchP st [.FALSE]
      if m then .ok (.rExpr (.literal (.boolL false)), st) else
      let (m, st) := matchP st [.FN]
      if m then pgo fuel (.functionBody "function") st else
      let (m, st) := matchP st [.IDENTIFIER]
      if m then
        let (i, st) := freshId st
        .ok (.rExpr (.variable i (previousP st)), st)
      else
      let (m, st) := matchP st [.LEFT_PAREN]
      if m then do
        let (e, st) ← asExpr (← pgo fuel .expressionJ st)
        let (_, st) ← consumeP st .RIGHT_PAREN "Expected ')' after expression."
        .ok (.rExpr (.grouping e), st)
      else
      let (m, st) := matchP st [.NIL]
      if m then .ok (.rExpr (.literal .noneL), st) else
      let (m, st) := matchP st [.NUMBER, .STRING]
      if m then .ok (.rExpr (.literal (previousP st).literal), st) else
      let (m, st) := matchP st [.THIS]
      if m then
        let (i, st) := freshId st
        .ok (.rExpr (.thisE i (previousP st)), st)
      else
      let (m, st) := matchP st [.TRUE]
      if m then .ok (.rExpr (.literal (.boolL true)), st) else
      -- `raise self._error(self._peek(), "Expected expression.")`
      .error (.perr, reportErr st (peekP st) "Expected expression.")
    | .parseLoop acc =>
      if !isAtEndP st then do
        let (s, st) ← asOStmt (← pgo fuel .decl st)
        pgo fuel (.parseLoop (acc ++ [s])) st
      else .ok (.rOStmts acc, st)

/-- `Parser(tokens).parse()`: the statement list, final parser state, or a
host-level crash message. -/
def parseProgram (tokens : List Token) : Except String (List (Option Stmt) × PState) :=
  match pgo (100 * (tokens.length + 2)) (.parseLoop [])
      { tokens := tokens, current := 0, loopDepth := 0, errors := [], nextId := 0 } with
  | .ok (.rOStmts l, st) => .ok (l, st)
  | .ok (_, _) => .error "internal: parse result shape"
  | .error (.pcrash m, _) => .error m
  | .error (.perr, _) => .error "internal: uncaught ParseError"

end ParserM

/-! ## Resolver (resolver.py) -/

inductive FunctionType where
  | NONEf | FUNCTIONf | INITIALIZERf | METHODf
deriving DecidableEq, Repr

inductive ClassType where
  | NONEc | CLASSc | SUBCLASSc
deriving DecidableEq, Repr

inductive ConstructorType where
  | NONEk | OTHERk | SUPERk | THISk
deriving DecidableEq, Repr

/-- `VariableTracker(initialized, occurence)`. -/
structure VariableTracker where
  initialized : Bool
  occurence : Nat
deriving DecidableEq, Repr

/-- A resolver scope: a dict keyed by `Token` under `Token.__eq__`
(kind + lexeme); modelled as an insertion-ordered association list. -/
def RScope := List (Token × VariableTracker)

/-- Resolver state.  `locals` is the interpreter's `_locals` side table
(`Interpreter.resolve(expr, depth)` keyed by node id); `warnings` records
`agent.warn` calls — note `lox.py` defines no `warn` method, so actually
emitting one would raise `AttributeError` in the source; every program
verified below is warning-free, which we assert in each theorem. -/
structure RState where
  scopes : List RScope
  errors : List (Token × String)
  warnings : List (Token × String)
  locals : List (Nat × Nat)
  currentFunction : FunctionType
  currentClass : ClassType
  currentCtor : ConstructorType
  stmtIndex : Nat
  repl : Bool
  fuelOut : Bool

namespace ResolverM

def scopeLookup (s : RScope) (name : Token) : Option VariableTracker :=
  match s.find? (fun p => tokenEq p.1 name) with
  | some p => some p.2
  | none => none

/-- Dict write `scope[name] = tr`: replace the first `Token.__eq__`-equal
entry, else append (Python dict insertion order). -/
def scopeWrite : RScope → Token → VariableTracker → RScope
  | [], name, tr => [(name, tr)]
  | p :: rest, name, tr =>
    if tokenEq p.1 name then (p.1, tr) :: rest
    else p :: scopeWrite rest name tr

/-- Update the innermost scope (Python `self._scopes[-1]`; the scope
stack is never empty while resolving because `resolve` opens one). -/
def withInnermost (st : RState) (f : RScope → RScope) : RState :=
  match st.scopes with
  | [] => st
  | s :: rest => { st with scopes := f s :: rest }

/-- `_begin_scope`. -/
def beginScope (st : RState) : RState := { st with scopes := [] :: st.scopes }

/-- `_declare`. -/
def declareN (st : RState) (name : Token) : RState :=
  match st.scopes with
  | [] => st
  | s :: rest =>
    match scopeLookup s name with
    | some _ =>
      { st with errors :=
          st.errors ++ [(name, "Already variable with this name in this scope.")] }
    | none =>
      { st with scopes := scopeWrite s name ⟨false, 1⟩ :: rest }

/-- `_define` (`scope[name].initialized = True`; the entry always exists
on every reachable path, so the absent case is a no-op model of the
unreachable KeyError). -/
def defineN (st : RState) (name : Token) : RState :=
  withInnermost st (fun s =>
    match scopeLookup s name with
    | some tr => scopeWrite s name { tr with initialized := true }
    | none => s)

/-- `_end_scope`: pop, then emit unused-variable warnings (skipped in
REPL mode and for the implicit `this`/`super` entries). -/
def endScope (st : RState) : RState :=
  match st.scopes with
  | [] => st
  | s :: rest =>
    let st := { st with scopes := rest }
    if st.repl then st
    else
      let unused := s.filter (fun p =>
        p.2.occurence == 1 && p.1.lexeme ≠ "this" && p.1.lexeme ≠ "super")
      let ws := unused.map (fun p =>
        (p.1, "Unused variable \x27" ++ p.1.lexeme ++ "\x27 in the current scope."))
      { st with warnings := st.warnings ++ ws }

/-- `interpreter.resolve(expr, depth)`: record the scope distance for a
node id in the side table. -/
def localsWrite : List (Nat × Nat) → Nat → Nat → List (Nat × Nat)
  | [], i, d => [(i, d)]
  | p :: rest, i, d =>
    if p.1 = i then (i, d) :: rest else p :: localsWrite rest i d

/-- `_resolve_local`: innermost-outward search; on the first hit bump the
occurrence count and record the distance. -/
def resolveLocal (st : RState) (exprId : Nat) (name : Token) : RState :=
  go st.scopes 0
where
  go : List RScope → Nat → RState
    | [], _ => st
    | s :: rest, i =>
      match scopeLookup s name with
      | some tr =>
        let scopes' := updAt st.scopes i (scopeWrite s name { tr with occurence := tr.occurence + 1 })
        { st with scopes := scopes', locals := localsWrite st.locals exprId i }
      | none => go rest (i + 1)
  updAt : List RScope → Nat → RScope → List RScope
    | [], _, _ => []
    | _ :: rest, 0, s' => s' :: rest
    | s0 :: rest, i + 1, s' => s0 :: updAt rest i s'

/-- Resolver work items (one per `Resolver.visit_...` loop). -/
inductive RJob where
  | stmtsJ (l : List (Option Stmt))
  | stmtsLoop (i : Nat) (l : List (Option Stmt))
  | stmtOJ (s : Option Stmt)
  | exprOJ (e : Option Expr)
  | funcJ (params : List Token) (body : List (Option Stmt)) (ftype : FunctionType)
  | methodsLoopR (className : String) (methods : List Stmt)
  | varsLoopR (vars : List Stmt)
  | argsLoopR (args : List Expr)

/-- The resolver pass as a fuel-indexed machine; each case mirrors the
corresponding `Resolver.visit_...` / helper body. -/
def rgo : Nat → RJob → RState → RState
  | 0, _, st => { st with fuelOut := true }
  | fuel + 1, job, st =>
    match job with
    | .stmtsJ l =>
      -- `_resolve_stmts`: reset the statement index, then enumerate
      rgo fuel (.stmtsLoop 0 l) { st with stmtIndex := 0 }
    | .stmtsLoop _ [] => st
    | .stmtsLoop i (s :: rest) =>
      let st := rgo fuel (.stmtOJ s) { st with stmtIndex := i }
      rgo fuel (.stmtsLoop (i + 1) rest) st
    | .stmtOJ none => st
    | .stmtOJ (some s) =>
      match s with
      | .block l =>
        endScope (rgo fuel (.stmtsJ l) (beginScope st))
      | .breakS => st
      | .contS => st
      | .classS name sup methods =>
        let enclosingClass := st.currentClass
        let st := { st with currentClass := .CLASSc }
        let st := defineN (declareN st name) name
        let st :=
          match sup with
          | some supE =>
            let st := { st with currentClass := .SUBCLASSc }
            let st :=
              match supE with
              | .variable _ supName =>
                if name.lexeme == supName.lexeme then
                  { st with errors := st.errors ++
                      [(supName, "A class cannot inherit from itself.")] }
                else st
              | _ => st
            let st := rgo fuel (.exprOJ (some supE)) st
            let st := beginScope st
            withInnermost st (fun sc =>
              scopeWrite sc ⟨.SUPER, "super", .noneL, name.line, 0⟩ ⟨true, 1⟩)
          | none => st
        let st := beginScope st
        let st := withInnermost st (fun sc =>
          scopeWrite sc ⟨.THIS, "this", .noneL, name.line + 1, 0⟩ ⟨true, 1⟩)
        let st := rgo fuel (.methodsLoopR name.lexeme methods) st
        let st := endScope st
        let st := if sup.isSome then endScope st else st
        { st with currentClass := enclosingClass }
      | .exprS e => rgo fuel (.exprOJ (some e)) st
      | .forS i c n b =>
        let st := rgo fuel (.stmtOJ i) st
        let st := rgo fuel (.exprOJ c) st
        let st := rgo fuel (.exprOJ n) st
        rgo fuel (.stmtOJ b) st
      | .fnS name fn =>
        let st := defineN (declareN st name) name
        match fn with
        | .functionE params body => rgo fuel (.funcJ params body .FUNCTIONf) st
        | _ => st
      | .ifS c t _ =>
        -- `visit_if_stmt` resolves the condition and the then branch
        -- only; the else branch is never visited (source lines 329-331)
        let st := rgo fuel (.exprOJ (some c)) st
        rgo fuel (.stmtOJ t) st
      | .multiVar vars => rgo fuel (.varsLoopR vars) st
      | .retS kw v =>
        let st :=
          if st.currentFunction == .NONEf then
            { st with errors := st.errors ++ [(kw, "Cannot return from top-level code.")] }
          else st
        match v with
        | some ve =>
          let st :=
            if st.currentFunction == .INITIALIZERf then
              { st with errors := st.errors ++
                  [(kw, "Cannot return a value from an initializer.")] }
            else st
          rgo fuel (.exprOJ (some ve)) st
        | none => st
      | .varS name init =>
        let st := declareN st name
        match init with
        | some ie => defineN (rgo fuel (.exprOJ (some ie)) st) name
        | none => st
      | .whileS c b =>
        let st := rgo fuel (.exprOJ (some c)) st
        rgo fuel (.stmtOJ b) st
    | .exprOJ none => st
    | .exprOJ (some e) =>
      match e with
      | .assign i name value =>
        let st := rgo fuel (.exprOJ (some value)) st
        resolveLocal st i name
      | .binary l _ r =>
        rgo fuel (.exprOJ (some r)) (rgo fuel (.exprOJ (some l)) st)
      | .call callee _ args =>
        let st := rgo fuel (.exprOJ (some callee)) st
        -- the `super()` chain-constructor checks; `expr.py` defines no
        -- Super node in this snapshot so `currentCtor` can never be
        -- SUPERk, but the checks are modelled as written
        if st.currentCtor == .SUPERk && st.currentFunction ≠ .INITIALIZERf then
          { st with errors := st.errors ++
              [(eParen e, "Can\x27t use \x27super\x27 constructor in a function that is not an initializer.")] }
        else if st.currentCtor == .SUPERk && st.stmtIndex ≠ 0 then
          { st with errors := st.errors ++
              [(eParen e, "\x27super\x27 constructor must be called before any other statement.")] }
        else rgo fuel (.argsLoopR args) st
      | .comma l _ r =>
        rgo fuel (.exprOJ (some r)) (rgo fuel (.exprOJ (some l)) st)
      | .functionE params body => rgo fuel (.funcJ params body .FUNCTIONf) st
      | .getE obj _ => rgo fuel (.exprOJ (some obj)) st
      | .grouping inner => rgo fuel (.exprOJ (some inner)) st
      | .literal _ => st
      | .logical l _ r =>
        rgo fuel (.exprOJ (some r)) (rgo fuel (.exprOJ (some l)) st)
      | .setE obj _ value =>
        rgo fuel (.exprOJ (some obj)) (rgo fuel (.exprOJ (some value)) st)
      | .ternary c t e2 =>
        let st := rgo fuel (.exprOJ (some c)) st
        rgo fuel (.exprOJ (some e2)) (rgo fuel (.exprOJ (some t)) st)
      | .thisE i kw =>
        let st :=
          if st.currentClass == .NONEc then
            { st with errors := st.errors ++
                [(kw, "Cannot use \x27" ++ kw.lexeme ++ "\x27 outside class.")] }
          else st
        resolveLocal st i kw
      | .unary _ right => rgo fuel (.exprOJ (some right)) st
      | .variable i name =>
        let st :=
          match st.scopes with
          | [] => st
          | innermost :: _ =>
            match scopeLookup innermost name with
            | some tr =>
              if tr.initialized == false then
                { st with errors := st.errors ++
                    [(name, "Cannot access before initialization.")] }
              else st
            | none => st
        resolveLocal st i name
    | .funcJ params body ftype =>
      -- `_resolve_function`
      let enclosingFunction := st.currentFunction
      let previousCtor := st.currentCtor
      let st := { st with
        currentFunction := ftype,
        currentCtor := if ftype == .INITIALIZERf then .OTHERk else .NONEk }
      let st := beginScope st
      let st := params.foldl (fun st p => defineN (declareN st p) p) st
      let st := rgo fuel (.stmtsJ body) st
      let st := endScope st
      { st with currentFunction := enclosingFunction, currentCtor := previousCtor }
    | .methodsLoopR _ [] => st
    | .methodsLoopR className (m :: rest) =>
      let st :=
        match m with
        | .fnS mname (.functionE params body) =>
          let decl := if mname.lexeme == className then FunctionType.INITIALIZERf
                      else FunctionType.METHODf
          rgo fuel (.funcJ params body decl) st
        | _ => st
      rgo fuel (.methodsLoopR className rest) st
    | .varsLoopR [] => st
    | .varsLoopR (v :: rest) =>
      rgo fuel (.varsLoopR rest) (rgo fuel (.stmtOJ (some v)) st)
    | .argsLoopR [] => st
    | .argsLoopR (a :: rest) =>
      rgo fuel (.argsLoopR rest) (rgo fuel (.exprOJ (some a)) st)
where
  /-- the paren token of a Call node (only used in the dead
  super-constructor diagnostics). -/
  eParen : Expr → Token
    | .call _ paren _ => paren
    | _ => ⟨.EOF, "", .noneL, 0, 0⟩

/-- Fuel generous enough for any AST the verified programs produce. -/
def rfuel (l : List (Option Stmt)) : Nat := 100000 + 100 * l.length

/-- `Resolver.resolve(statements)`: open the top scope, resolve, close. -/
def resolveProgram (repl : Bool) (stmts : List (Option Stmt)) : RState :=
  let st0 : RState :=
    { scopes := [], errors := [], warnings := [], locals := [],
      currentFunction := .NONEf, currentClass := .NONEc,
      currentCtor := .NONEk, stmtIndex := 0, repl := repl, fuelOut := false }
  let st := beginScope st0
  let st := rgo (rfuel stmts) (.stmtsJ stmts) st
  endScope st

end ResolverM

/-! ## Runtime values and heap (environment.py, function.py, klass.py,
instance.py, utils.py, types.py) -/

/-- Runtime values.  Mutable Python objects (environments, functions,
classes, instances) live in the store and are referenced by index, which
models Python object identity; `uninit` carries the allocation id of its
`Uninitialized()` instance for the same reason. -/
inductive Value where
  | nil
  | bool (b : Bool)
  | int (i : Int)
  | float (q : Rat)
  | str (s : String)
  | uninit (id : Nat)
  | func (id : Nat)
  | klassV (id : Nat)
  | inst (id : Nat)
  | clockB
  | printB
deriving DecidableEq, Repr

/-- `function.py Function`: name, parameters, body, captured closure
environment, initializer flag. -/
structure FuncVal where
  name : Option String
  params : List Token
  body : List (Option Stmt)
  closure : Nat
  isInitializer : Bool

/-- `klass.py Class`: name, optional superclass, method table
(name to function id). -/
structure ClassData where
  name : String
  superclass : Option Nat
  methods : List (String × Nat)

/-- `instance.py Instance`: class reference plus mutable fields. -/
structure InstData where
  klass : Nat
  fields : List (String × Value)

/-- `environment.py Environment`: `_values` dict plus `_enclosing`. -/
structure Frame where
  values : List (String × Value)
  enclosing : Option Nat

/-- The interpreter heap and output channel.  `output` collects the lines
written by the `print` builtin; `printCalled` is the interpreter's
`_print_called` flag. -/
structure St where
  envs : List Frame
  funcs : List FuncVal
  classes : List ClassData
  insts : List InstData
  output : List String
  printCalled : Bool
  nextUninit : Nat

/-- Escapes: `RuntimeError`, `Break`, `Continue`, `Return` (the source's
exception-based non-local control flow), a host-level `TypeError`, and
fuel exhaustion (an artifact of the embedding, asserted absent in every
verified run). -/
inductive Esc where
  | rt (token : Token) (msg : String)
  | brkE
  | contE
  | retE (v : Value)
  | typeErr (msg : String)
  | fuelE
deriving Repr

/-- Interpreter context fixed during execution: the resolved-distance
side table (written only by the resolver) and the REPL flag. -/
structure Ctx where
  locals : List (Nat × Nat)
  repl : Bool

namespace Interp

def svLookup : List (String × Value) → String → Option Value
  | [], _ => none
  | p :: rest, n => if p.1 == n then some p.2 else svLookup rest n

/-- Dict write: replace or append (insertion order preserved). -/
def svWrite : List (String × Value) → String → Value → List (String × Value)
  | [], n, v => [(n, v)]
  | p :: rest, n, v =>
    if p.1 == n then (n, v) :: rest else p :: svWrite rest n v

def emptyFrame : Frame := ⟨[], none⟩

def frameOf (s : St) (e : Nat) : Frame := s.envs.getD e emptyFrame

def setFrame (s : St) (e : Nat) (f : Frame) : St :=
  { s with envs := s.envs.set e f }

/-- `Environment.ancestor`: walk `distance` hops, stopping early at the
root (the source breaks out when `_enclosing is None`). -/
def ancestorE (s : St) (e : Nat) : Nat → Nat
  | 0 => e
  | d + 1 =>
    match (frameOf s e).enclosing with
    | none => e
    | some p => ancestorE s p d

/-- `Environment.define`. -/
def envDefine (s : St) (e : Nat) (n : String) (v : Value) : St :=
  setFrame s e { frameOf s e with values := svWrite (frameOf s e).values n v }

/-- `Environment.get`, fuel-indexed for the chain walk (reachable stores
have strictly decreasing enclosing ids, so `e + 1` fuel is exact). -/
def envGetFuel : Nat → St → Nat → Token → Except (Token × String) Value
  | 0, _, _, tok => .error (tok, "internal: environment chain fuel")
  | fuel + 1, s, e, tok =>
    let f := frameOf s e
    match svLookup f.values tok.lexeme with
    | some v =>
      match v with
      | .uninit _ =>
        .error (tok, "Cannot access \x27" ++ tok.lexeme ++ "\x27 before initialization.")
      | _ => .ok v
    | none =>
      match f.enclosing with
      | some p => envGetFuel fuel s p tok
      | none => .error (tok, "Undefined variable \x27" ++ tok.lexeme ++ "\x27.")

def envGet (s : St) (e : Nat) (tok : Token) : Except (Token × String) Value :=
  envGetFuel (e + 1) s e tok

/-- `Environment.get_at`: `self.ancestor(distance)._values.get(name)` —
no uninitialized check, and a missing key yields Python `None`, which is
the language's `nil`. -/
def envGetAt (s : St) (e : Nat) (d : Nat) (n : String) : Value :=
  (svLookup (frameOf s (ancestorE s e d)).values n).getD .nil

/-- `Environment.assign` (fuel as in `envGetFuel`). -/
def envAssignFuel : Nat → St → Nat → Token → Value → Except (Token × String) St
  | 0, _, _, tok, _ => .error (tok, "internal: environment chain fuel")
  | fuel + 1, s, e, tok, v =>
    let f := frameOf s e
    match svLookup f.values tok.lexeme with
    | some _ => .ok (setFrame s e { f with values := svWrite f.values tok.lexeme v })
    | none =>
      match f.enclosing with
      | some p => envAssignFuel fuel s p tok v
      | none => .error (tok, "Undefined variable \x27" ++ tok.lexeme ++ "\x27.")

def envAssign (s : St) (e : Nat) (tok : Token) (v : Value) : Except (Token × String) St :=
  envAssignFuel (e + 1) s e tok v

/-- `Environment.assign_at`: `self.ancestor(distance).assign(name, value)`. -/
def envAssignAt (s : St) (e : Nat) (d : Nat) (tok : Token) (v : Value) :
    Except (Token × String) St :=
  envAssign s (ancestorE s e d) tok v

/-- `Interpreter._is_truthy` is Python `bool(obj)`: `None` and `False`
are falsy, and so are the numbers `0`/`0.0` and the empty string; every
other object (closures, classes, instances, builtins, the uninitialized
sentinel) is truthy.  (`types.py` is absent from the snapshot; the
sentinel is modelled with the object-default `__bool__`.) -/
def pyBool : Value → Bool
  | .nil => false
  | .bool b => b
  | .int i => i ≠ 0
  | .float q => q ≠ 0
  | .str s => s ≠ ""
  | .uninit _ => true
  | .func _ => true
  | .klassV _ => true
  | .inst _ => true
  | .clockB => true
  | .printB => true

/-- Numeric view for Python `==` (`bool`/`int`/`float` compare across
types: `True == 1`, `1 == 1.0`). -/
def numValQ : Value → Option Rat
  | .bool b => some (if b then 1 else 0)
  | .int i => some (i : Rat)
  | .float q => some q
  | _ => none

/-- `Interpreter._is_equal` is Python `a == b`: the numeric tower
compares numerically, strings structurally, `None` only to itself, and
heap objects by identity. -/
def pyEq (a b : Value) : Bool :=
  match numValQ a, numValQ b with
  | some x, some y => x == y
  | _, _ =>
    match a, b with
    | .nil, .nil => true
    | .str s, .str t => s == t
    | .uninit i, .uninit j => i == j
    | .func i, .func j => i == j
    | .klassV i, .klassV j => i == j
    | .inst i, .inst j => i == j
    | .clockB, .clockB => true
    | .printB, .printB => true
    | _, _ => false

def defaultFunc : FuncVal := ⟨none, [], [], 0, false⟩

def defaultClass : ClassData := ⟨"", none, []⟩

def defaultInst : InstData := ⟨0, []⟩

/-- `f"{obj:g}"` for a float.  The integral small range is exact; Python
%g rounding of other floats is IEEE-specific and outside the model — no
verified statement prints a float at all. -/
def formatG (q : Rat) : String :=
  if q.den = 1 ∧ q.num.natAbs < 1000000 then toString q.num
  else "float:" ++ toString q.num ++ "/" ++ toString q.den

/-- `Class.find_method`: own table first, then the superclass chain. -/
def findMethodFuel : Nat → St → Nat → String → Option Nat
  | 0, _, _, _ => none
  | fuel + 1, s, cid, n =>
    let c := s.classes.getD cid defaultClass
    match c.methods.find? (fun p => p.1 == n) with
    | some p => some p.2
    | none =>
      match c.superclass with
      | some sup => findMethodFuel fuel s sup n
      | none => none

def findMethod (s : St) (cid : Nat) (n : String) : Option Nat :=
  findMethodFuel (s.classes.length + 1) s cid n

/-- `Function.arity`. -/
def funcArity (s : St) (fid : Nat) : Nat := (s.funcs.getD fid defaultFunc).params.length

/-- `Class.arity`: the initializer's arity (the method named like the
class), else 0. -/
def classArity (s : St) (cid : Nat) : Nat :=
  match findMethod s cid (s.classes.getD cid defaultClass).name with
  | some fid => funcArity s fid
  | none => 0

/-- `isinstance(callee, Callable)`: functions, classes and the two
builtins; instances are not callable. -/
def isCallable : Value → Bool
  | .func _ => true
  | .klassV _ => true
  | .clockB => true
  | .printB => true
  | _ => false

def arityOf (s : St) : Value → Nat
  | .func fid => funcArity s fid
  | .klassV cid => classArity s cid
  | .clockB => 0
  | .printB => 1
  | _ => 0

/-- `Interpreter.stringify`, in the source's check order (None, float,
bool, str, then `str(obj)`; integer literals are Python ints and take the
`str(obj)` branch).  The sentinel's `str` is the default object repr with
a heap address; it is modelled without the address and never printed by a
verified program. -/
def stringifyV (s : St) : Value → String
  | .nil => "nil"
  | .float q => formatG q
  | .bool b => if b then "true" else "false"
  | .str s0 => "\x27" ++ s0 ++ "\x27"
  | .int i => toString i
  | .uninit _ => "Uninitialized instance"
  | .func fid =>
    match (s.funcs.getD fid defaultFunc).name with
    | some n => "<fn " ++ n ++ ">"
    | none => "<fn>"
  | .klassV cid => "<class " ++ (s.classes.getD cid defaultClass).name ++ ">"
  | .inst i => "<" ++ (s.classes.getD (s.insts.getD i defaultInst).klass defaultClass).name ++ " instance>"
  | .clockB => "<native fn clock>"
  | .printB => "<native fn print>"

/-- `Function.bind`: a fresh environment defining `this`, enclosing the
method's closure; a new Function sharing declaration and initializer
flag.  Returns the new store and function id. -/
def bindFunction (s : St) (fid : Nat) (instId : Nat) : St × Nat :=
  let f := s.funcs.getD fid defaultFunc
  let envId := s.envs.length
  let frame : Frame := ⟨[("this", Value.inst instId)], some f.closure⟩
  let s := { s with envs := s.envs ++ [frame] }
  let newFid := s.funcs.length
  ({ s with funcs := s.funcs ++ [{ f with closure := envId }] }, newFid)

/-- `Clock.call` returns `round(time.time())`; the host clock is
modelled as a fixed integer, never observed by a verified statement. -/
def clockValue : Int := 0

/-- `self._locals.get(expr, -1)` keyed by node identity. -/
def localsGet : List (Nat × Nat) → Nat → Option Nat
  | [], _ => none
  | p :: rest, i => if p.1 = i then some p.2 else localsGet rest i

/-- `Interpreter._lookup_variable`: resolved distance if present, else
the globals chain (environment id 0). -/
def lookupVariable (ctx : Ctx) (s : St) (env : Nat) (nodeId : Nat) (name : Token) :
    Except (Token × String) Value :=
  match localsGet ctx.locals nodeId with
  | some d => .ok (envGetAt s env d name.lexeme)
  | none => envGet s 0 name

/-- `Interpreter._check_lvalue_operand(operator, expr.right)`: the
operand here is the AST node, so the `isinstance(operand, Uninitialized)`
branch can never fire (an AST node is not a runtime sentinel); `Literal`
and `Grouping` operands are rejected. -/
def checkLvalueOperand (op : Token) : Expr → Option (Token × String)
  | .literal _ => some (op, "Cannot assign to literal.")
  | .grouping _ => some (op, "Cannot assign to literal.")
  | _ => none

/-- Work items for the interpreter machine: expressions, argument lists,
statements, the two loop forms, `Function.call` and the
callable-dispatch of `visit_call_expr`. -/
inductive Job where
  | exprJ (env : Nat) (e : Expr)
  | argsJ (env : Nat) (es : List Expr) (acc : List Value)
  | stmtOJ (env : Nat) (s : Option Stmt)
  | stmtsJ (env : Nat) (l : List (Option Stmt))
  | whileJ (env : Nat) (cond : Expr) (body : Option Stmt)
  | forJ (env : Nat) (cond : Option Expr) (incr : Option Expr) (body : Option Stmt)
  | callV (callee : Value) (paren : Token) (args : List Value)
  | callF (fid : Nat) (args : List Value)

/-- Expression jobs produce a singleton value list; statement jobs an
empty one. -/
def headVal (r : Except (Esc × St) (List Value × St)) : Except (Esc × St) (Value × St) :=
  match r with
  | .ok (vs, s) => .ok (vs.headD .nil, s)
  | .error e => .error e

def litToValue : PyLit → Value
  | .noneL => .nil
  | .boolL b => .bool b
  | .intL i => .int i
  | .floatL q => .float q
  | .strL s => .str s

/-- The interpreter as a single fuel-indexed machine.  Each case mirrors
the corresponding `Interpreter.visit_...` method (or `Function.call` /
`Class.call` / the builtins).  The current environment is a parameter:
`execute_block`'s save/restore of `self._environment` is exactly
call-stack discipline. -/
def run1 : Nat → Ctx → Job → St → Except (Esc × St) (List Value × St)
  | 0, _, _, s => .error (.fuelE, s)
  | fuel + 1, ctx, job, s =>
    match job with
    | .exprJ env e =>
      match e with
      | .literal l => .ok ([litToValue l], s)
      | .grouping g => run1 fuel ctx (.exprJ env g) s
      | .unary op right => do
        let (v, s) ← headVal (run1 fuel ctx (.exprJ env right) s)
        match op.type with
        | .BANG => .ok ([.bool (!pyBool v)], s)
        | .MINUS =>
          match v with
          | .float q => .ok ([.float (-q)], s)
          | _ => .error (.rt op "Operand must be a number.", s)
        | .PLUS =>
          match v with
          | .float q => .ok ([.float q], s)
          | _ => .error (.rt op "Operand must be a number.", s)
        | .INCREMENT =>
          match checkLvalueOperand op right with
          | some (t, m) => .error (.rt t m, s)
          | none => .ok ([.nil], s)
        | .DECREMENT =>
          match checkLvalueOperand op right with
          | some (t, m) => .error (.rt t m, s)
          | none => .ok ([.nil], s)
        | _ => .ok ([.nil], s)
      | .binary l op r => do
        let (lv, s) ← headVal (run1 fuel ctx (.exprJ env l) s)
        let (rv, s) ← headVal (run1 fuel ctx (.exprJ env r) s)
        match op.type with
        | .BANG_EQUAL => .ok ([.bool (!pyEq lv rv)], s)
        | .EQUAL_EQUAL => .ok ([.bool (pyEq lv rv)], s)
        | .GREATER =>
          match lv, rv with
          | .float a, .float b => .ok ([.bool (decide (a > b))], s)
          | .str a, .str b => .ok ([.bool (decide (b < a))], s)
          | _, _ => .error (.rt op "Operands must be two numbers or two strings.", s)
        | .GREATER_EQUAL =>
          match lv, rv with
          | .float a, .float b => .ok ([.bool (decide (a ≥ b))], s)
          | .str a, .str b => .ok ([.bool (!decide (a < b))], s)
          | _, _ => .error (.rt op "Operands must be two numbers or two strings.", s)
        | .LESS =>
          match lv, rv with
          | .float a, .float b => .ok ([.bool (decide (a < b))], s)
          | .str a, .str b => .ok ([.bool (decide (a < b))], s)
          | _, _ => .error (.rt op "Operands must be two numbers or two strings.", s)
        | .LESS_EQUAL =>
          match lv, rv with
          | .float a, .float b => .ok ([.bool (decide (a ≤ b))], s)
          | .str a, .str b => .ok ([.bool (!decide (b < a))], s)
          | _, _ => .error (.rt op "Operands must be two numbers or two strings.", s)
        | .MINUS =>
          match lv, rv with
          | .float a, .float b => .ok ([.float (a - b)], s)
          | _, _ => .error (.rt op "Operands must be numbers.", s)
        | .PLUS =>
          match lv, rv with
          | .float a, .float b => .ok ([.float (a + b)], s)
          | .str a, .str b => .ok ([.str (a ++ b)], s)
          | _, _ => .error (.rt op "Operands must be two numbers or two strings.", s)
        | .SLASH =>
          match lv, rv with
          | .float a, .float b =>
            if b = 0 then .error (.rt op "Division by zero.", s)
            else .ok ([.float (a / b)], s)
          | _, _ => .error (.rt op "Operands must be numbers.", s)
        | .STAR =>
          match lv, rv with
          | .float a, .float b => .ok ([.float (a * b)], s)
          | _, _ => .error (.rt op "Operands must be numbers.", s)
        | _ => .ok ([.nil], s)
      | .logical l op r => do
        let (lv, s) ← headVal (run1 fuel ctx (.exprJ env l) s)
        if op.type == .OR then
          if pyBool lv then .ok ([lv], s)
          else run1 fuel ctx (.exprJ env r) s
        else
          if !pyBool lv then .ok ([lv], s)
          else run1 fuel ctx (.exprJ env r) s
      | .ternary c t e2 => do
        let (cv, s) ← headVal (run1 fuel ctx (.exprJ env c) s)
        if pyBool cv then run1 fuel ctx (.exprJ env t) s
        else run1 fuel ctx (.exprJ env e2) s
      | .comma l _ r => do
        let (_, s) ← headVal (run1 fuel ctx (.exprJ env l) s)
        run1 fuel ctx (.exprJ env r) s
      | .variable nodeId name =>
        match lookupVariable ctx s env nodeId name with
        | .ok v => .ok ([v], s)
        | .error (t, m) => .error (.rt t m, s)
      | .thisE nodeId kw =>
        match lookupVariable ctx s env nodeId kw with
        | .ok v => .ok ([v], s)
        | .error (t, m) => .error (.rt t m, s)
      | .assign nodeId name value => do
        let (v, s) ← headVal (run1 fuel ctx (.exprJ env value) s)
        match localsGet ctx.locals nodeId with
        | some d =>
          match envAssignAt s env d name v with
          | .ok s => .ok ([v], s)
          | .error (t, m) => .error (.rt t m, s)
        | none =>
          match envAssign s 0 name v with
          | .ok s => .ok ([v], s)
          | .error (t, m) => .error (.rt t m, s)
      | .call callee paren args => do
        let (cv, s) ← headVal (run1 fuel ctx (.exprJ env callee) s)
        let s := if cv == .printB then { s with printCalled := true } else s
        let r ← run1 fuel ctx (.argsJ env args []) s
        let (argvs, s) := r
        if !isCallable cv then
          .error (.rt paren "Can only call functions and classes.", s)
        else
          let ar := arityOf s cv
          if argvs.length ≠ ar then
            .error (.rt paren ("Expected " ++ toString ar ++ " arguments but got "
              ++ toString argvs.length ++ "."), s)
          else run1 fuel ctx (.callV cv paren argvs) s
      | .getE obj name => do
        let (ov, s) ← headVal (run1 fuel ctx (.exprJ env obj) s)
        match ov with
        | .inst i =>
          let idata := s.insts.getD i defaultInst
          match svLookup idata.fields name.lexeme with
          | some v => .ok ([v], s)
          | none =>
            match findMethod s idata.klass name.lexeme with
            | some m =>
              let (s, bfid) := bindFunction s m i
              .ok ([.func bfid], s)
            | none =>
              .error (.rt name ("Undefined property \x27" ++ name.lexeme ++ "\x27."), s)
        | _ => .error (.rt name "Only instances have properties.", s)
      | .setE obj name value => do
        let (ov, s) ← headVal (run1 fuel ctx (.exprJ env obj) s)
        match ov with
        | .inst i => do
          let (v, s) ← headVal (run1 fuel ctx (.exprJ env value) s)
          let idata := s.insts.getD i defaultInst
          let idata := { idata with fields := svWrite idata.fields name.lexeme v }
          let s := { s with insts := s.insts.set i idata }
          .ok ([v], s)
        | _ => .error (.rt name "Only instances have fields.", s)
      | .functionE params body =>
        let fid := s.funcs.length
        let s := { s with funcs := s.funcs ++ [⟨none, params, body, env, false⟩] }
        .ok ([.func fid], s)
    | .argsJ env es acc =>
      match es with
      | [] => .ok (acc, s)
      | e :: rest => do
        let (v, s) ← headVal (run1 fuel ctx (.exprJ env e) s)
        run1 fuel ctx (.argsJ env rest (acc ++ [v])) s
    | .stmtOJ _ none => .ok ([], s)
    | .stmtOJ env (some stmt) =>
      match stmt with
      | .exprS e => do
        let (v, s) ← headVal (run1 fuel ctx (.exprJ env e) s)
        let s :=
          if ctx.repl && !s.printCalled then
            { s with output := s.output ++ [stringifyV s v] }
          else s
        .ok ([], { s with printCalled := false })
      | .block l =>
        let envId := s.envs.length
        let s := { s with envs := s.envs ++ [⟨[], some env⟩] }
        run1 fuel ctx (.stmtsJ envId l) s
      | .breakS => .error (.brkE, s)
      | .contS => .error (.contE, s)
      | .retS _ v => do
        let (val, s) ←
          match v with
          | some e => headVal (run1 fuel ctx (.exprJ env e) s)
          | none => pure (Value.nil, s)
        .error (.retE val, s)
      | .varS name init =>
        let uid := s.nextUninit
        let s := { s with nextUninit := uid + 1 }
        let s := envDefine s env name.lexeme (.uninit uid)
        match init with
        | some e => do
          let (v, s) ← headVal (run1 fuel ctx (.exprJ env e) s)
          match envAssign s env name v with
          | .ok s => .ok ([], s)
          | .error (t, m) => .error (.rt t m, s)
        | none => .ok ([], s)
      | .multiVar vars =>
        match vars with
        | [] => .ok ([], s)
        | v :: rest => do
          let (_, s) ← run1 fuel ctx (.stmtOJ env (some v)) s
          run1 fuel ctx (.stmtOJ env (some (.multiVar rest))) s
      | .fnS name fn =>
        match fn with
        | .functionE params body =>
          let fid := s.funcs.length
          let s := { s with funcs := s.funcs ++ [⟨some name.lexeme, params, body, env, false⟩] }
          .ok ([], envDefine s env name.lexeme (.func fid))
        | _ => .error (.typeErr "internal: function statement shape", s)
      | .classS name _ methods =>
        -- visit_class_stmt: pre-bind the name to nil and build the method
        -- Function objects; the closing `Class(stmt.name.lexeme, methods)`
        -- passes two arguments to klass.Class.__init__(name, superclass,
        -- methods): a host TypeError
        let s := envDefine s env name.lexeme .nil
        let s := methods.foldl (fun s m =>
          match m with
          | .fnS mname (.functionE params body) =>
            { s with funcs := s.funcs ++
                [⟨some mname.lexeme, params, body, env, mname.lexeme == name.lexeme⟩] }
          | _ => s) s
        .error (.typeErr "Class.__init__() missing 1 required positional argument: \x27methods\x27", s)
      | .ifS c t e2 => do
        let (cv, s) ← headVal (run1 fuel ctx (.exprJ env c) s)
        -- `if truthy and then_branch: ... elif else_branch: ...`
        if pyBool cv && t.isSome then run1 fuel ctx (.stmtOJ env t) s
        else if e2.isSome then run1 fuel ctx (.stmtOJ env e2) s
        else .ok ([], s)
      | .whileS c b => run1 fuel ctx (.whileJ env c b) s
      | .forS i c inc b => do
        let (_, s) ← run1 fuel ctx (.stmtOJ env i) s
        run1 fuel ctx (.forJ env c inc b) s
    | .stmtsJ env l =>
      match l with
      | [] => .ok ([], s)
      | s0 :: rest => do
        let (_, s) ← run1 fuel ctx (.stmtOJ env s0) s
        run1 fuel ctx (.stmtsJ env rest) s
    | .whileJ env c b => do
      let (cv, s) ← headVal (run1 fuel ctx (.exprJ env c) s)
      if !pyBool cv then .ok ([], s)
      else
        match run1 fuel ctx (.stmtOJ env b) s with
        | .ok (_, s) => run1 fuel ctx (.whileJ env c b) s
        | .error (.brkE, s) => .ok ([], s)
        | .error (.contE, s) => run1 fuel ctx (.whileJ env c b) s
        | .error e => .error e
    | .forJ env c inc b => do
      let (cv, s) ←
        match c with
        | some ce => headVal (run1 fuel ctx (.exprJ env ce) s)
        | none => pure (Value.bool true, s)
      if !pyBool cv then .ok ([], s)
      else
        -- try: body / except Break: break / except Continue: continue /
        -- finally: evaluate the increment.  Python's finally runs the
        -- increment on every exit path, including Break (the `break` in
        -- the except clause triggers the finally first), and an
        -- exception raised by the increment replaces the body's outcome.
        let rbody := run1 fuel ctx (.stmtOJ env b) s
        let incrRun : St → Except (Esc × St) (Value × St) := fun s1 =>
          match inc with
          | some ie => headVal (run1 fuel ctx (.exprJ env ie) s1)
          | none => .ok (.nil, s1)
        match rbody with
        | .ok (_, s1) =>
          match incrRun s1 with
          | .ok (_, s2) => run1 fuel ctx (.forJ env c inc b) s2
          | .error e2 => .error e2
        | .error (.brkE, s1) =>
          match incrRun s1 with
          | .ok (_, s2) => .ok ([], s2)
          | .error e2 => .error e2
        | .error (.contE, s1) =>
          match incrRun s1 with
          | .ok (_, s2) => run1 fuel ctx (.forJ env c inc b) s2
          | .error e2 => .error e2
        | .error (e, s1) =>
          match incrRun s1 with
          | .ok (_, s2) => .error (e, s2)
          | .error e2 => .error e2
    | .callV callee _ args =>
      match callee with
      | .clockB => .ok ([.int clockValue], s)
      | .printB =>
        -- Print.call: strings are written raw, other values stringified
        if args.length ≠ 1 then
          .error (.typeErr "Expected 1 argument", s)
        else
          let out :=
            match args.headD .nil with
            | .str s0 => s0
            | v => stringifyV s v
          .ok ([.nil], { s with output := s.output ++ [out] })
      | .func fid => run1 fuel ctx (.callF fid args) s
      | .klassV cid =>
        -- Class.call: allocate the instance, run the bound initializer
        -- if one exists, and return the instance
        let instId := s.insts.length
        let s := { s with insts := s.insts ++ [⟨cid, []⟩] }
        match findMethod s cid (s.classes.getD cid defaultClass).name with
        | some initFid =>
          let (s, bfid) := bindFunction s initFid instId
          match run1 fuel ctx (.callF bfid args) s with
          | .ok (_, s) => .ok ([.inst instId], s)
          | .error e => .error e
        | none => .ok ([.inst instId], s)
      | _ => .error (.typeErr "internal: not callable", s)
    | .callF fid args =>
      -- Function.call: fresh environment over the closure, bind the
      -- parameters positionally (the callers have checked the arity),
      -- run the body; a Return unwind yields its value, normal
      -- completion yields nil, and an initializer always yields the
      -- bound `this` from its closure
      let f := s.funcs.getD fid defaultFunc
      let envId := s.envs.length
      let vals := (f.params.zip args).foldl (fun l pa => svWrite l pa.1.lexeme pa.2) []
      let s := { s with envs := s.envs ++ [⟨vals, some f.closure⟩] }
      match run1 fuel ctx (.stmtsJ envId f.body) s with
      | .ok (_, s) =>
        if f.isInitializer then .ok ([envGetAt s f.closure 0 "this"], s)
        else .ok ([.nil], s)
      | .error (.retE v, s) =>
        if f.isInitializer then .ok ([envGetAt s f.closure 0 "this"], s)
        else .ok ([v], s)
      | .error e => .error e

/-- The interpreter's initial state: a globals environment holding the
two builtins. -/
def initState : St :=
  { envs := [⟨[("clock", .clockB), ("print", .printB)], none⟩],
    funcs := [], classes := [], insts := [],
    output := [], printCalled := false, nextUninit := 0 }

/-- `Interpreter.interpret`: run the statements at the globals
environment; a `RuntimeError` is caught and reported (second component);
any other escape (`Break`/`Continue`/`Return`/`TypeError`/fuel) is not
caught and crashes the driver (third component). -/
def interpret (ctx : Ctx) (fuel : Nat) (stmts : List (Option Stmt)) (s0 : St) :
    St × Option (Token × String) × Option Esc :=
  match run1 fuel ctx (.stmtsJ 0 stmts) s0 with
  | .ok (_, s) => (s, none, none)
  | .error (.rt t m, s) => (s, some (t, m), none)
  | .error (e, s) => (s, none, some e)

end Interp

/-! ## Driver (main.py / lox.py) -/

/-- Observable outcome of `python main.py <file>`: what reached stdout
through the `print` builtin, an uncaught host exception if one ended the
process, and the exit code. -/
structure RunOutcome where
  output : List String
  crash : Option String
  exitCode : Nat
deriving Repr

/-- The exception that ends every invocation: `lox.py` imports
`Resolver`, and `resolver.py`'s import list names `Super` and
`UArithmeticOp`, neither of which `expr.py` defines. -/
def importErrorMsg : String :=
  "ImportError: cannot import name \x27Super\x27 from \x27interpreter.expr\x27"

/-- Invoking the driver on any source file.  The driver module cannot be
imported (see `importErrorMsg`), so the process dies with an uncaught
`ImportError` — exit code 1, nothing printed — before a single character
of the file is read; and even with the imports repaired, the scanner
would crash constructing its first token (`Scanner.scanTokens`).
`Lox.run_file`'s 65/70/74 exit paths are therefore unreachable. -/
def driverOutcome (_source : String) : RunOutcome :=
  { output := [], crash := some importErrorMsg, exitCode := 1 }

/-! ## Concrete inputs used by the theorems

Source strings are fed to the scanner/driver (which crash, as the
source does); token lists and AST nodes are constructed directly, which
is exactly what the importable modules `parser.py` and `interpreter.py`
allow a caller to do. -/

/-- The spec's first end-to-end scenario. -/
def c1Src : String := "print(1+2*3);"

/-- A class declaration (with no methods). -/
def c4Src : String := "class A \x7b\x7d"

/-- A `break` statement at top level. -/
def c8Src : String := "break;"

/-- A well-formed block comment with ordinary content. -/
def c9Src : String := "/* x */"

/-- Directly constructed tokens (the four real `Token.__init__`
arguments; the inert `column` field is 0). -/
def tkn (t : TokenType) (lx : String) : Token := ⟨t, lx, .noneL, 1, 0⟩

def plusTokC1 : Token := tkn .PLUS "+"

def starTokC1 : Token := tkn .STAR "*"

/-- The AST of `1+2*3` exactly as the source front end is written to
build it: integer-shaped literals carry Python ints
(`Scanner._number`'s `int(...)` branch), `*` under `+`. -/
def c1Arith : Expr :=
  .binary (.literal (.intL 1)) plusTokC1
    (.binary (.literal (.intL 2)) starTokC1 (.literal (.intL 3)))

def bangTok : Token := tkn .BANG "!"

/-- Token list of `class A {}` as a caller of `Parser` would build it. -/
def c4Tokens : List Token :=
  [tkn .CLASS "class", tkn .IDENTIFIER "A", tkn .LEFT_BRACE "\x7b",
   tkn .RIGHT_BRACE "\x7d", tkn .EOF ""]

/-- Token list of `break;`. -/
def c8Tokens : List Token :=
  [tkn .BREAK "break", tkn .SEMICOLON ";", tkn .EOF ""]

def ctxF : Ctx := ⟨[], false⟩

def xTokC5 : Token := tkn .IDENTIFIER "x"

/-- One global `x = 0` for the for-loop counterexample. -/
def c5St : St :=
  { envs := [⟨[("x", .int 0)], none⟩], funcs := [], classes := [], insts := [],
    output := [], printCalled := false, nextUninit := 0 }

/-- The same store after the increment has assigned `x = 1`. -/
def c5StAfter : St :=
  { envs := [⟨[("x", .int 1)], none⟩], funcs := [], classes := [], insts := [],
    output := [], printCalled := false, nextUninit := 0 }

/-- `for (;;x = 1) break;` — no initializer, no condition, an increment
that assigns 1 to `x` (resolved at distance 0), a body that breaks. -/
def c5ForStmt : Stmt :=
  .forS none none (some (.assign 0 xTokC5 (.literal (.intL 1)))) (some .breakS)

def ctx5 : Ctx := ⟨[(0, 0)], false⟩

def aTok6 : Token := tkn .IDENTIFIER "a"

/-- `var a = 0; if (true) a; else a;` with the then-branch reference
carrying node id 1 and the else-branch reference node id 2, fed directly
to the resolver. -/
def c6Stmts : List (Option Stmt) :=
  [some (.multiVar [.varS aTok6 (some (.literal (.intL 0)))]),
   some (.ifS (.literal (.boolL true))
     (some (.exprS (.variable 1 aTok6)))
     (some (.exprS (.variable 2 aTok6))))]

/-! ## Theorems -/

/-- Claim C1: the spec says `print(1+2*3);` writes exactly the line `7`
and raises no runtime error.  Nothing of the sort can happen: (1) the
driver cannot even be imported, so the process exits 1 with an
ImportError and prints nothing; (2) the scanner alone, given the source,
raises a TypeError constructing its very first token (the `print`
identifier) — a five-argument `Token` call into a four-parameter
`__init__`; (3) even below those crashes, the interpreter rejects the
arithmetic: integer-shaped literals are Python ints while every numeric
check is `isinstance(..., float)`, so evaluating the hand-built AST of
`1+2*3` raises RuntimeError "Operands must be numbers." at the `*`. -/
theorem c1_scenario_never_prints_seven :
    (driverOutcome c1Src).exitCode = 1 ∧
    (driverOutcome c1Src).crash = some importErrorMsg ∧
    (driverOutcome c1Src).output = [] ∧
    (driverOutcome c1Src).output ≠ ["7"] ∧
    (Scanner.scanTokens c1Src).crash =
      some (.tokenArity ⟨.IDENTIFIER, "print", .noneL, 1, 5⟩) ∧
    (Scanner.scanTokens "1+2*3;").crash =
      some (.tokenArity ⟨.NUMBER, "1", .intL 1, 1, 1⟩) ∧
    Interp.run1 5 ctxF (.exprJ 0 c1Arith) Interp.initState =
      .error (.rt starTokC1 "Operands must be numbers.", Interp.initState) := by
  refine ⟨rfl, rfl, rfl, ?_, rfl, rfl, rfl⟩
  decide

/-- Claim C2, counterexample: the claim says `!!0` and `!!""` evaluate
to `true` (0 and the empty string truthy).  `Interpreter._is_truthy` is
Python `bool(obj)`, under which `0` and `""` are falsy: evaluating the
hand-built ASTs of `!!0` and `!!""` (the importable interpreter, fed AST
nodes directly) yields `false`, not `true`. -/
theorem c2_double_bang_counterexample :
    Interp.run1 3 ctxF
        (.exprJ 0 (.unary bangTok (.unary bangTok (.literal (.intL 0)))))
        Interp.initState
      = .ok ([.bool false], Interp.initState) ∧
    Interp.run1 3 ctxF
        (.exprJ 0 (.unary bangTok (.unary bangTok (.literal (.strL "")))))
        Interp.initState
      = .ok ([.bool false], Interp.initState) ∧
    Value.bool false ≠ Value.bool true := by
  refine ⟨rfl, rfl, ?_⟩
  decide

/-- Claim C2, amended: a runtime value is truthy exactly when it is none
of `nil`, `false`, the number zero (int or float), or the empty string;
all other values — including every closure, class, instance, builtin and
the uninitialized sentinel — are truthy. -/
theorem c2_truthiness_amended (v : Value) :
    Interp.pyBool v = false ↔
      (v = .nil ∨ v = .bool false ∨ v = .int 0 ∨ v = .float 0 ∨ v = .str "") := by
  cases v <;> simp [Interp.pyBool]

/-- Claim C4: the claim describes the class-call protocol (allocate an
instance, run the bound initializer, yield the instance even on a bare
`return;`).  No class declaration can get anywhere near that protocol:
(1) the driver is unimportable (exit 1, ImportError); (2) the scanner
crashes constructing the `class` keyword token; (3) `parser.py` — which
is importable and can be fed a directly constructed token list — crashes
with a TypeError on `class A {}` because `ClassStmt(name, methods)`
omits the `superclass` parameter of `stmt.Class.__init__` (and
`interpreter.visit_class_stmt` repeats the same arity mismatch against
`klass.Class.__init__`). -/
theorem c4_class_declaration_crashes :
    (driverOutcome c4Src).exitCode = 1 ∧
    (driverOutcome c4Src).crash = some importErrorMsg ∧
    (Scanner.scanTokens c4Src).crash =
      some (.tokenArity ⟨.CLASS, "class", .noneL, 1, 5⟩) ∧
    ParserM.parseProgram c4Tokens =
      .error "TypeError: Class.__init__() missing 1 required positional argument: \x27methods\x27" := by
  exact ⟨rfl, rfl, rfl, rfl⟩

/-- Claim C5, counterexample: the claim says the increment is not
evaluated after an iteration terminated by `break`.  Executing the
hand-built statement `for (;;x = 1) break;` (the importable interpreter,
fed the AST directly) from a store with `x = 0` terminates the loop with
`x = 1`: the `try/except/finally` of `visit_for_stmt` ran the increment
on the break path (Python's `finally` fires before the `break` in the
except clause takes effect).  Under the claim, `x` would still be 0. -/
theorem c5_increment_runs_after_break :
    Interp.run1 6 ctx5 (.stmtOJ 0 (some c5ForStmt)) c5St = .ok ([], c5StAfter) ∧
    Interp.envGetAt c5StAfter 0 0 "x" = .int 1 ∧
    Value.int 1 ≠ Value.int 0 := by
  refine ⟨rfl, rfl, ?_⟩
  decide

/-- Claim C6: the claim says the resolver resolves both branches of
every `if`.  `Resolver.visit_if_stmt` (as written — the module itself
cannot even be imported in this snapshot) resolves only the condition
and the then branch.  First conjunct, fully generally: the resolution
state after an `if` statement is the state after resolving the
condition and then branch alone — the else branch is never traversed,
so any two else branches resolve identically.  The remaining conjuncts
exhibit it concretely: in `c6Stmts` the then-branch reference (id 1)
gets distance 0 while the else-branch reference (id 2) gets no
annotation at all, which at run time means the globals-chain fallback
instead of the live block-local. -/
theorem c6_else_branch_unresolved :
    (∀ (fuel : Nat) (st : RState) (c : Expr) (t e1 e2 : Option Stmt),
      ResolverM.rgo (fuel + 1) (.stmtOJ (some (.ifS c t e1))) st =
        ResolverM.rgo (fuel + 1) (.stmtOJ (some (.ifS c t e2))) st) ∧
    (ResolverM.resolveProgram false c6Stmts).locals = [(1, 0)] ∧
    Interp.localsGet (ResolverM.resolveProgram false c6Stmts).locals 2 = none ∧
    (ResolverM.resolveProgram false c6Stmts).errors = [] ∧
    (ResolverM.resolveProgram false c6Stmts).warnings = [] := by
  refine ⟨?_, rfl, rfl, rfl, rfl⟩
  intro fuel st c t e1 e2
  simp only [ResolverM.rgo]

/-- Claim C8: the claim says `break;` at top level reports a syntax
error, sets the error flag and exits with 65.  Three facts to the
contrary: the driver can never exit 65 (it dies on import, exit 1); the
scanner crashes on the source's first token; and `parser.py` itself —
importable, fed the token list directly — silently drops the statement:
`_break_statement` raises `ParseError` without going through
`self._error`, so the recovery path yields `[None]` with the error list
empty and `had_error` never set. -/
theorem c8_top_level_break_is_silent :
    ParserM.parseProgram c8Tokens = .ok ([none], ⟨c8Tokens, 2, 0, [], 0⟩) ∧
    (Scanner.scanTokens c8Src).crash =
      some (.tokenArity ⟨.BREAK, "break", .noneL, 1, 5⟩) ∧
    (driverOutcome c8Src).exitCode = 1 ∧
    (driverOutcome c8Src).exitCode ≠ 65 := by
  refine ⟨rfl, rfl, rfl, ?_⟩
  decide

/-- Claim C9: the claim says a `/* ... */` comment is skipped through
the first `*/` with no tokens emitted from its contents.  Two bugs
compound against it on `/* x */` (7 characters): the loop guard of
`_block_comment` — `not (at_end or peek != "*" and peek_next != "/")`,
with Python's precedence — exits immediately on ordinary content, and
the two unconditional advances swallow only `" x"`, so the scanner
resumes tokenizing *inside* the comment; it then attempts to emit a
`*` token from the comment's closing star (cursor at index 6, before
the comment's end at index 7), at which point the five-argument `Token`
construction raises TypeError.  No input ever yields a token list. -/
theorem c9_block_comment_not_skipped :
    (Scanner.scanTokens c9Src).crash =
      some (.tokenArity ⟨.STAR, "*", .noneL, 1, 5⟩) ∧
    (Scanner.scanTokens c9Src).current = 6 ∧
    c9Src.length = 7 := by
  exact ⟨rfl, rfl, rfl⟩

/-! ### Store lemmas for the capture-stability theorem (C3) -/

theorem listSet_getD_ne {α : Type} (l : List α) (i j : Nat) (a d : α) (h : i ≠ j) :
    (l.set i a).getD j d = l.getD j d := by
  induction l generalizing i j with
  | nil => rfl
  | cons hd tl ih =>
    cases i with
    | zero =>
      cases j with
      | zero => exact absurd rfl h
      | succ j => simp [List.set, List.getD]
    | succ i =>
      cases j with
      | zero => simp [List.set, List.getD]
      | succ j =>
        simp only [List.set, List.getD_cons_succ]
        exact ih i j (fun he => h (congrArg Nat.succ he))

theorem listSet_getD_eq {α : Type} (l : List α) (i : Nat) (a d : α) :
    (l.set i a).getD i d = if i < l.length then a else l.getD i d := by
  induction l generalizing i with
  | nil => simp [List.set, List.getD]
  | cons hd tl ih =>
    cases i with
    | zero => simp [List.set, List.getD]
    | succ i =>
      simp only [List.set, List.getD_cons_succ, List.length_cons]
      rw [ih i]
      simp [Nat.add_lt_add_iff_right]

theorem svLookup_svWrite_ne (l : List (String × Value)) (y : String) (v : Value)
    (x : String) (h : y ≠ x) :
    Interp.svLookup (Interp.svWrite l y v) x = Interp.svLookup l x := by
  induction l with
  | nil => simp [Interp.svWrite, Interp.svLookup, h, Ne.symm h]
  | cons p rest ih =>
    by_cases hp : p.1 = y
    · simp [Interp.svWrite, Interp.svLookup, hp, h, Ne.symm h]
    · by_cases hx : p.1 = x
      · simp [Interp.svWrite, Interp.svLookup, hp, hx, h, Ne.symm h]
      · simp [Interp.svWrite, Interp.svLookup, hp, hx, ih]

/-- `Environment.define` never changes any frame's enclosing pointer. -/
theorem enclosing_envDefine (s : St) (f : Nat) (y : String) (v : Value) (e : Nat) :
    (Interp.frameOf (Interp.envDefine s f y v) e).enclosing =
      (Interp.frameOf s e).enclosing := by
  unfold Interp.envDefine Interp.setFrame Interp.frameOf
  by_cases h : f = e
  · subst h
    rw [listSet_getD_eq]
    split
    · rfl
    · rfl
  · rw [listSet_getD_ne _ _ _ _ _ h]

/-- `Environment.ancestor` is unaffected by any `define`. -/
theorem ancestorE_envDefine (s : St) (f : Nat) (y : String) (v : Value) :
    ∀ (d e : Nat), Interp.ancestorE (Interp.envDefine s f y v) e d =
      Interp.ancestorE s e d := by
  intro d
  induction d with
  | zero => intro e; rfl
  | succ d ih =>
    intro e
    show Interp.ancestorE _ e (d + 1) = Interp.ancestorE s e (d + 1)
    unfold Interp.ancestorE
    rw [enclosing_envDefine]
    cases (Interp.frameOf s e).enclosing with
    | none => rfl
    | some p => exact ih p

/-- A `define` into frame `f` leaves the lookup of `x` in any frame `a`
unchanged provided it touches a different frame or a different name. -/
theorem svLookup_frame_envDefine (s : St) (f : Nat) (y : String) (v : Value)
    (a : Nat) (x : String) (h : f ≠ a ∨ y ≠ x) :
    Interp.svLookup (Interp.frameOf (Interp.envDefine s f y v) a).values x =
      Interp.svLookup (Interp.frameOf s a).values x := by
  unfold Interp.envDefine Interp.setFrame Interp.frameOf
  by_cases hf : f = a
  · subst hf
    rw [listSet_getD_eq]
    split
    · cases h with
      | inl hne => exact absurd rfl hne
      | inr hne => exact svLookup_svWrite_ne _ _ _ _ hne
    · rfl
  · rw [listSet_getD_ne _ _ _ _ _ hf]

/-- Claim C3: the interpreter side of distance-pinned capture.  A
resolved reference reads through `Environment.ancestor`/`get_at` (or the
globals chain when unresolved), and executing a later variable
declaration — `Environment.define` on any frame other than the one the
fixed annotation reaches, or with a different name — changes neither the
ancestor walk nor the value the closure body reads.  The annotation
itself is immutable during execution by construction: the interpreter's
`_locals` table is part of the read-only `Ctx`, written only by the
resolver pass. -/
theorem c3_capture_unaffected_by_later_declaration
    (s : St) (e d : Nat) (x : String) (f : Nat) (y : String) (v : Value) :
    Interp.ancestorE (Interp.envDefine s f y v) e d = Interp.ancestorE s e d ∧
    ((f ≠ Interp.ancestorE s e d ∨ y ≠ x) →
      Interp.envGetAt (Interp.envDefine s f y v) e d x = Interp.envGetAt s e d x) ∧
    (∀ tok : Token, (Interp.frameOf s 0).enclosing = none →
      (f ≠ 0 ∨ y ≠ tok.lexeme) →
      Interp.envGet (Interp.envDefine s f y v) 0 tok = Interp.envGet s 0 tok) := by
  refine ⟨ancestorE_envDefine s f y v d e, ?_, ?_⟩
  · intro h
    unfold Interp.envGetAt
    rw [ancestorE_envDefine, svLookup_frame_envDefine s f y v _ x h]
  · intro tok hroot h
    have h1 : Interp.svLookup (Interp.frameOf (Interp.envDefine s f y v) 0).values tok.lexeme
        = Interp.svLookup (Interp.frameOf s 0).values tok.lexeme :=
      svLookup_frame_envDefine s f y v 0 tok.lexeme h
    have h2 : (Interp.frameOf (Interp.envDefine s f y v) 0).enclosing = none := by
      rw [enclosing_envDefine]; exact hroot
    simp only [Interp.envGet, Interp.envGetFuel]
    rw [h1, h2, hroot]

/-- A concrete store shaped like the classic shadowing test after the
closure call: frame 0 the globals (holding `a = "global"`), frame 1 the
block environment the closure captured, frame 2 the call frame. -/
def sW3 : St :=
  { envs := [⟨[("a", .str "global"), ("print", .printB)], none⟩,
             ⟨[("showA", .func 0)], some 0⟩,
             ⟨[], some 1⟩],
    funcs := [⟨some "showA", [], [], 1, false⟩],
    classes := [], insts := [], output := [], printCalled := false, nextUninit := 0 }

def aTokW : Token := ⟨.IDENTIFIER, "a", .noneL, 1, 5⟩

/-- Claim C5, amended: the for-loop increment is evaluated after every
iteration whose body began, including iterations terminated by
`continue` and those terminated by `break` (the `finally` clause of
`visit_for_stmt` runs it on every exit path): after a break the loop
exits with the increment's effects applied, after a continue the loop
re-enters from the post-increment state. -/
theorem c5_for_increment_amended
    (fuel : Nat) (ctx : Ctx) (env : Nat) (ce inc : Expr) (b : Option Stmt)
    (s s0 s1 : St) (v : Value)
    (hc : Interp.headVal (Interp.run1 fuel ctx (.exprJ env ce) s) = .ok (v, s0))
    (ht : Interp.pyBool v = true) :
    (Interp.run1 fuel ctx (.stmtOJ env b) s0 = .error (.brkE, s1) →
      Interp.run1 (fuel + 1) ctx (.forJ env (some ce) (some inc) b) s =
        (match Interp.headVal (Interp.run1 fuel ctx (.exprJ env inc) s1) with
         | .ok (_, s2) => .ok ([], s2)
         | .error e2 => .error e2)) ∧
    (Interp.run1 fuel ctx (.stmtOJ env b) s0 = .error (.contE, s1) →
      Interp.run1 (fuel + 1) ctx (.forJ env (some ce) (some inc) b) s =
        (match Interp.headVal (Interp.run1 fuel ctx (.exprJ env inc) s1) with
         | .ok (_, s2) => Interp.run1 fuel ctx (.forJ env (some ce) (some inc) b) s2
         | .error e2 => .error e2)) := by
  constructor <;> intro hb <;>
    simp only [Interp.run1, hc, ht, hb, Bind.bind, Except.bind, Bool.not_true, Bool.false_eq_true,
      if_false]

theorem c5_for_increment_witness :
    Interp.run1 4 ctxF
      (.forJ 0 (some (.literal (.intL 1))) (some (.literal (.intL 7))) (some .breakS))
      Interp.initState = .ok ([], Interp.initState) := by
  have h := (c5_for_increment_amended 3 ctxF 0 (.literal (.intL 1)) (.literal (.intL 7))
    (some .breakS) Interp.initState Interp.initState Interp.initState (.int 1) rfl rfl).1 rfl
  exact h.trans rfl

/-- A one-frame store whose only binding holds the uninitialized
sentinel, with that variable resolved at distance 0. -/
def sU : St :=
  { envs := [⟨[("x", .uninit 0)], none⟩], funcs := [], classes := [], insts := [],
    output := [], printCalled := false, nextUninit := 1 }

def xTokU : Token := ⟨.IDENTIFIER, "x", .noneL, 1, 1⟩

def ctxU : Ctx := ⟨[(0, 0)], false⟩

/-- Claim C7, counterexample: the claim says a read of an uninitialized
binding raises a runtime error on both lookup paths.  Through the
resolved-distance path (`get_at`) the read succeeds and produces the
sentinel as an ordinary value; only the globals-chain path (`get`)
raises. -/
theorem c7_resolved_read_yields_sentinel :
    Interp.run1 2 ctxU (.exprJ 0 (.variable 0 xTokU)) sU = .ok ([.uninit 0], sU) ∧
    Interp.envGetAt sU 0 0 "x" = .uninit 0 ∧
    Interp.envGet sU 0 xTokU =
      .error (xTokU, "Cannot access \x27x\x27 before initialization.") := by
  exact ⟨rfl, rfl, rfl⟩

/-- Claim C7, amended: for every binding that currently holds the
uninitialized sentinel, `Environment.get` (the globals-chain path)
raises "Cannot access ... before initialization", while
`Environment.get_at` (the resolved-distance path) performs no check and
returns the sentinel as a value. -/
theorem c7_uninitialized_read_amended (s : St) (e : Nat) (tok : Token) (uid : Nat)
    (h : Interp.svLookup (Interp.frameOf s e).values tok.lexeme = some (.uninit uid)) :
    Interp.envGet s e tok =
      .error (tok, "Cannot access \x27" ++ tok.lexeme ++ "\x27 before initialization.") ∧
    Interp.envGetAt s e 0 tok.lexeme = .uninit uid := by
  constructor
  · simp only [Interp.envGet, Interp.envGetFuel, h]
  · simp only [Interp.envGetAt, Interp.ancestorE, h, Option.getD]

theorem c7_uninitialized_read_witness :
    Interp.envGet sU 0 xTokU =
      .error (xTokU, "Cannot access \x27x\x27 before initialization.") ∧
    Interp.envGetAt sU 0 0 "x" = .uninit 0 := by
  have h := c7_uninitialized_read_amended sU 0 xTokU 0 rfl
  exact ⟨h.1, h.2⟩

/-- Claim C10: a prefix `++`/`--` whose operand is a variable evaluates
the operand, passes the l-value check (the check inspects the AST node,
and a `Variable` node is neither a `Literal` nor a `Grouping`), performs
no assignment — the store is returned untouched — and yields nil. -/
theorem c10_prefix_incdec_no_assignment
    (fuel : Nat) (ctx : Ctx) (env : Nat) (s : St) (nodeId : Nat) (name op : Token)
    (v : Value)
    (hop : op.type = .INCREMENT ∨ op.type = .DECREMENT)
    (hlook : Interp.lookupVariable ctx s env nodeId name = .ok v) :
    Interp.run1 (fuel + 2) ctx (.exprJ env (.unary op (.variable nodeId name))) s
      = .ok ([Value.nil], s) := by
  cases hop with
  | inl h =>
    simp only [Interp.run1, hlook, h, Interp.headVal, Interp.checkLvalueOperand,
      Bind.bind, Except.bind, List.headD]
  | inr h =>
    simp only [Interp.run1, hlook, h, Interp.headVal, Interp.checkLvalueOperand,
      Bind.bind, Except.bind, List.headD]

/-- A store with one global `x = 5` (resolved at distance 0). -/
def sV : St :=
  { envs := [⟨[("x", .int 5)], none⟩], funcs := [], classes := [], insts := [],
    output := [], printCalled := false, nextUninit := 0 }

def xTokV : Token := ⟨.IDENTIFIER, "x", .noneL, 1, 3⟩

def incTokV : Token := ⟨.INCREMENT, "++", .noneL, 1, 1⟩

theorem c10_prefix_incdec_witness :
    Interp.run1 2 ⟨[(0, 0)], false⟩ (.exprJ 0 (.unary incTokV (.variable 0 xTokV))) sV
      = .ok ([Value.nil], sV) := by
  exact c10_prefix_incdec_no_assignment 0 ⟨[(0, 0)], false⟩ 0 sV 0 xTokV incTokV
    (.int 5) (Or.inl rfl) rfl

/-- Supporting development for C4: the call protocol that `klass.py`
implements does match the claim — `Class.call` allocates a fresh
instance and yields that instance whatever the (bound) initializer's
body does — but no execution can reach it, since every class
declaration crashes first (the C4 theorem above). -/
theorem class_call_always_yields_instance (fuel : Nat) (ctx : Ctx) (cid : Nat)
    (paren : Token) (args : List Value) (s : St) (vs : List Value) (s' : St)
    (h : Interp.run1 (fuel + 1) ctx (.callV (.klassV cid) paren args) s = .ok (vs, s')) :
    vs = [.inst s.insts.length] := by
  simp only [Interp.run1] at h
  split at h
  · split at h
    · injection h with h2
      injection h2 with ha hb
      exact ha.symm
    · cases h
  · injection h with h2
    injection h2 with ha hb
    exact ha.symm

theorem c3_capture_witness :
    Interp.envGetAt (Interp.envDefine sW3 1 "a" (.str "block")) 2 2 "a"
      = Interp.envGetAt sW3 2 2 "a" ∧
    Interp.envGet (Interp.envDefine sW3 1 "a" (.str "block")) 0 aTokW
      = Interp.envGet sW3 0 aTokW ∧
    Interp.envGetAt sW3 2 2 "a" = .str "global" := by
  refine ⟨?_, ?_, rfl⟩
  · exact (c3_capture_unaffected_by_later_declaration sW3 2 2 "a" 1 "a" (.str "block")).2.1
      (Or.inl (by decide))
  · exact (c3_capture_unaffected_by_later_declaration sW3 2 2 "a" 1 "a" (.str "block")).2.2
      aTokW rfl (Or.inl (by decide))

end Ne0gi
